import Mathlib

/-!
Shallow embedding of the CAN telemetry core of the Sally-Dashboard repository
(`src/Software/Dashboard/src/can_mod.rs`, `eco_can.rs`, `main.rs`).

Bytes are modelled as `Nat` values below 256, byte buffers as `List Nat`.
The bincode configuration used by the code (`standard().with_big_endian()
.with_fixed_int_encoding()`) writes every integer field fixed-width,
big-endian, with no padding and no length prefix; decoding reads the fields
in declaration order and ignores trailing bytes.  Machine integers are
modelled as `Nat` (unsigned fields) and `Int` (signed fields) with explicit
range side conditions where overflow matters.
-/

namespace Sally

/-- Big-endian byte image of a `u8` field, as written by bincode's
fixed-int encoding. -/
def encBE8 (n : Nat) : List Nat := [n % 256]

/-- Big-endian byte image of a `u16` field. -/
def encBE16 (n : Nat) : List Nat := [n / 2 ^ 8 % 256, n % 256]

/-- Big-endian byte image of a `u32` field. -/
def encBE32 (n : Nat) : List Nat :=
  [n / 2 ^ 24 % 256, n / 2 ^ 16 % 256, n / 2 ^ 8 % 256, n % 256]

/-- Big-endian byte image of an `i32` field: the two's-complement unsigned
image of the value, as bincode writes `i32::to_be_bytes`. -/
def encI32 (v : Int) : List Nat := encBE32 (v % (2 ^ 32 : Int)).toNat

/-- Read one byte of a `u8` field; fails (as bincode `UnexpectedEnd`) when
the buffer is exhausted. -/
def read8 (l : List Nat) : Option (Nat × List Nat) :=
  match l with
  | a :: rest => some (a, rest)
  | _ => none

/-- Read two bytes of a `u16` field, big-endian. -/
def read16 (l : List Nat) : Option (Nat × List Nat) :=
  match l with
  | a :: b :: rest => some (a * 256 + b, rest)
  | _ => none

/-- Read four bytes of a `u32` field, big-endian. -/
def read32 (l : List Nat) : Option (Nat × List Nat) :=
  match l with
  | a :: b :: c :: d :: rest => some ((((a * 256 + b) * 256 + c) * 256 + d), rest)
  | _ => none

/-- Read four bytes of an `i32` field, big-endian two's complement. -/
def readI32 (l : List Nat) : Option (Int × List Nat) :=
  match read32 l with
  | some (n, rest) => some (if n < 2 ^ 31 then (n : Int) else (n : Int) - 2 ^ 32, rest)
  | none => none

theorem read8_encBE8 (n : Nat) (h : n < 2 ^ 8) (rest : List Nat) :
    read8 (encBE8 n ++ rest) = some (n, rest) := by
  simp only [encBE8, read8, List.cons_append, List.nil_append,
    Option.some.injEq, Prod.mk.injEq]
  exact ⟨by omega, trivial⟩

theorem read16_encBE16 (n : Nat) (h : n < 2 ^ 16) (rest : List Nat) :
    read16 (encBE16 n ++ rest) = some (n, rest) := by
  simp only [encBE16, read16, List.cons_append, List.nil_append,
    Option.some.injEq, Prod.mk.injEq]
  exact ⟨by omega, trivial⟩

theorem read32_encBE32 (n : Nat) (h : n < 2 ^ 32) (rest : List Nat) :
    read32 (encBE32 n ++ rest) = some (n, rest) := by
  simp only [encBE32, read32, List.cons_append, List.nil_append,
    Option.some.injEq, Prod.mk.injEq]
  exact ⟨by omega, trivial⟩

theorem readI32_encI32 (v : Int) (h1 : -2 ^ 31 ≤ v) (h2 : v < 2 ^ 31) (rest : List Nat) :
    readI32 (encI32 v ++ rest) = some (v, rest) := by
  have hmod : (0 : Int) ≤ v % (2 ^ 32 : Int) := Int.emod_nonneg v (by norm_num)
  have hlt : v % (2 ^ 32 : Int) < 2 ^ 32 := Int.emod_lt_of_pos v (by norm_num)
  have hnat : ((v % (2 ^ 32 : Int)).toNat : Int) = v % (2 ^ 32 : Int) :=
    Int.toNat_of_nonneg hmod
  have hb : (v % (2 ^ 32 : Int)).toNat < 2 ^ 32 := by omega
  simp only [encI32, readI32, read32_encBE32 _ hb]
  congr 1
  split
  · rename_i hlt'
    have : ((v % (2 ^ 32 : Int)).toNat : Int) < 2 ^ 31 := by exact_mod_cast hlt'
    simp only [Prod.mk.injEq]
    exact ⟨by omega, trivial⟩
  · rename_i hge
    have : ¬ ((v % (2 ^ 32 : Int)).toNat : Int) < 2 ^ 31 := by exact_mod_cast hge
    simp only [Prod.mk.injEq]
    exact ⟨by omega, trivial⟩

theorem read8_encBE8_nil (n : Nat) (h : n < 2 ^ 8) :
    read8 (encBE8 n) = some (n, []) := by
  simpa using read8_encBE8 n h []

theorem read16_encBE16_nil (n : Nat) (h : n < 2 ^ 16) :
    read16 (encBE16 n) = some (n, []) := by
  simpa using read16_encBE16 n h []

theorem read32_encBE32_nil (n : Nat) (h : n < 2 ^ 32) :
    read32 (encBE32 n) = some (n, []) := by
  simpa using read32_encBE32 n h []

theorem readI32_encI32_nil (v : Int) (h1 : -2 ^ 31 ≤ v) (h2 : v < 2 ^ 31) :
    readI32 (encI32 v) = some (v, []) := by
  simpa using readI32_encI32 v h1 h2 []

theorem encBE8_length (n : Nat) : (encBE8 n).length = 1 := rfl

theorem encBE16_length (n : Nat) : (encBE16 n).length = 2 := rfl

theorem encBE32_length (n : Nat) : (encBE32 n).length = 4 := rfl

theorem encI32_length (v : Int) : (encI32 v).length = 4 := rfl

/-- CAN package struct `FDCAN_FetPack_t` from `eco_can.rs` (fields in declaration order). -/
structure FDCAN_FetPack_t where
  fet_config : Nat
  input_volt : Nat
  cap_volt : Nat
  cap_curr : Nat
  res_curr : Nat
  out_curr : Nat
deriving DecidableEq

/-- Declared FDCAN byte length of `FDCAN_FetPack_t`. -/
def FDCAN_FetPack_t.FDCAN_BYTES : Nat := 24

/-- CAN identifier of `FDCAN_FetPack_t`. -/
def FDCAN_FetPack_t.FDCAN_ID : Nat := 0x010

/-- bincode big-endian fixed-width encoding of `FDCAN_FetPack_t`. -/
def FDCAN_FetPack_t.encode (r : FDCAN_FetPack_t) : List Nat :=
  encBE32 r.fet_config ++ encBE32 r.input_volt ++ encBE32 r.cap_volt ++ encBE32 r.cap_curr ++ encBE32 r.res_curr ++ encBE32 r.out_curr

/-- bincode big-endian fixed-width decoding of `FDCAN_FetPack_t`; trailing bytes are
returned unconsumed, missing bytes are a decode fault (`none`). -/
def FDCAN_FetPack_t.decode (l : List Nat) : Option (FDCAN_FetPack_t × List Nat) := do
  let (v0, l) ← read32 l
  let (v1, l) ← read32 l
  let (v2, l) ← read32 l
  let (v3, l) ← read32 l
  let (v4, l) ← read32 l
  let (v5, l) ← read32 l
  return (⟨v0, v1, v2, v3, v4, v5⟩, l)

/-- Field values representable in the machine-integer layout of `FDCAN_FetPack_t`. -/
def FDCAN_FetPack_t.Representable (r : FDCAN_FetPack_t) : Prop :=
  r.fet_config < 2 ^ 32 ∧ r.input_volt < 2 ^ 32 ∧ r.cap_volt < 2 ^ 32 ∧ r.cap_curr < 2 ^ 32 ∧ r.res_curr < 2 ^ 32 ∧ r.out_curr < 2 ^ 32

/-- CAN package struct `ECOCAN_RelPackChrg_t` from `eco_can.rs` (fields in declaration order). -/
structure ECOCAN_RelPackChrg_t where
  fc_coloumbs : Int
  cap_coloumbs : Int
deriving DecidableEq

/-- Declared FDCAN byte length of `ECOCAN_RelPackChrg_t`. -/
def ECOCAN_RelPackChrg_t.FDCAN_BYTES : Nat := 8

/-- CAN identifier of `ECOCAN_RelPackChrg_t`. -/
def ECOCAN_RelPackChrg_t.FDCAN_ID : Nat := 0x013

/-- bincode big-endian fixed-width encoding of `ECOCAN_RelPackChrg_t`. -/
def ECOCAN_RelPackChrg_t.encode (r : ECOCAN_RelPackChrg_t) : List Nat :=
  encI32 r.fc_coloumbs ++ encI32 r.cap_coloumbs

/-- bincode big-endian fixed-width decoding of `ECOCAN_RelPackChrg_t`; trailing bytes are
returned unconsumed, missing bytes are a decode fault (`none`). -/
def ECOCAN_RelPackChrg_t.decode (l : List Nat) : Option (ECOCAN_RelPackChrg_t × List Nat) := do
  let (v0, l) ← readI32 l
  let (v1, l) ← readI32 l
  return (⟨v0, v1⟩, l)

/-- Field values representable in the machine-integer layout of `ECOCAN_RelPackChrg_t`. -/
def ECOCAN_RelPackChrg_t.Representable (r : ECOCAN_RelPackChrg_t) : Prop :=
  (-2 ^ 31 ≤ r.fc_coloumbs ∧ r.fc_coloumbs < 2 ^ 31) ∧ (-2 ^ 31 ≤ r.cap_coloumbs ∧ r.cap_coloumbs < 2 ^ 31)

/-- CAN package struct `FDCAN_RelPackNrg_t` from `eco_can.rs` (fields in declaration order). -/
structure FDCAN_RelPackNrg_t where
  fc_joules : Int
  cap_joules : Int
deriving DecidableEq

/-- Declared FDCAN byte length of `FDCAN_RelPackNrg_t`. -/
def FDCAN_RelPackNrg_t.FDCAN_BYTES : Nat := 8

/-- CAN identifier of `FDCAN_RelPackNrg_t`. -/
def FDCAN_RelPackNrg_t.FDCAN_ID : Nat := 0x014

/-- bincode big-endian fixed-width encoding of `FDCAN_RelPackNrg_t`. -/
def FDCAN_RelPackNrg_t.encode (r : FDCAN_RelPackNrg_t) : List Nat :=
  encI32 r.fc_joules ++ encI32 r.cap_joules

/-- bincode big-endian fixed-width decoding of `FDCAN_RelPackNrg_t`; trailing bytes are
returned unconsumed, missing bytes are a decode fault (`none`). -/
def FDCAN_RelPackNrg_t.decode (l : List Nat) : Option (FDCAN_RelPackNrg_t × List Nat) := do
  let (v0, l) ← readI32 l
  let (v1, l) ← readI32 l
  return (⟨v0, v1⟩, l)

/-- Field values representable in the machine-integer layout of `FDCAN_RelPackNrg_t`. -/
def FDCAN_RelPackNrg_t.Representable (r : FDCAN_RelPackNrg_t) : Prop :=
  (-2 ^ 31 ≤ r.fc_joules ∧ r.fc_joules < 2 ^ 31) ∧ (-2 ^ 31 ≤ r.cap_joules ∧ r.cap_joules < 2 ^ 31)

/-- CAN package struct `FDCAN_RelPackMtr_t` from `eco_can.rs` (fields in declaration order). -/
structure FDCAN_RelPackMtr_t where
  mtr_volt : Nat
  mtr_curr : Nat
deriving DecidableEq

/-- Declared FDCAN byte length of `FDCAN_RelPackMtr_t`. -/
def FDCAN_RelPackMtr_t.FDCAN_BYTES : Nat := 8

/-- CAN identifier of `FDCAN_RelPackMtr_t`. -/
def FDCAN_RelPackMtr_t.FDCAN_ID : Nat := 0x015

/-- bincode big-endian fixed-width encoding of `FDCAN_RelPackMtr_t`. -/
def FDCAN_RelPackMtr_t.encode (r : FDCAN_RelPackMtr_t) : List Nat :=
  encBE32 r.mtr_volt ++ encBE32 r.mtr_curr

/-- bincode big-endian fixed-width decoding of `FDCAN_RelPackMtr_t`; trailing bytes are
returned unconsumed, missing bytes are a decode fault (`none`). -/
def FDCAN_RelPackMtr_t.decode (l : List Nat) : Option (FDCAN_RelPackMtr_t × List Nat) := do
  let (v0, l) ← read32 l
  let (v1, l) ← read32 l
  return (⟨v0, v1⟩, l)

/-- Field values representable in the machine-integer layout of `FDCAN_RelPackMtr_t`. -/
def FDCAN_RelPackMtr_t.Representable (r : FDCAN_RelPackMtr_t) : Prop :=
  r.mtr_volt < 2 ^ 32 ∧ r.mtr_curr < 2 ^ 32

/-- CAN package struct `FDCAN_RelPackCap_t` from `eco_can.rs` (fields in declaration order). -/
structure FDCAN_RelPackCap_t where
  cap_volt : Nat
  cap_curr : Int
deriving DecidableEq

/-- Declared FDCAN byte length of `FDCAN_RelPackCap_t`. -/
def FDCAN_RelPackCap_t.FDCAN_BYTES : Nat := 8

/-- CAN identifier of `FDCAN_RelPackCap_t`. -/
def FDCAN_RelPackCap_t.FDCAN_ID : Nat := 0x016

/-- bincode big-endian fixed-width encoding of `FDCAN_RelPackCap_t`. -/
def FDCAN_RelPackCap_t.encode (r : FDCAN_RelPackCap_t) : List Nat :=
  encBE32 r.cap_volt ++ encI32 r.cap_curr

/-- bincode big-endian fixed-width decoding of `FDCAN_RelPackCap_t`; trailing bytes are
returned unconsumed, missing bytes are a decode fault (`none`). -/
def FDCAN_RelPackCap_t.decode (l : List Nat) : Option (FDCAN_RelPackCap_t × List Nat) := do
  let (v0, l) ← read32 l
  let (v1, l) ← readI32 l
  return (⟨v0, v1⟩, l)

/-- Field values representable in the machine-integer layout of `FDCAN_RelPackCap_t`. -/
def FDCAN_RelPackCap_t.Representable (r : FDCAN_RelPackCap_t) : Prop :=
  r.cap_volt < 2 ^ 32 ∧ (-2 ^ 31 ≤ r.cap_curr ∧ r.cap_curr < 2 ^ 31)

/-- CAN package struct `FDCAN_RelPackFc_t` from `eco_can.rs` (fields in declaration order). -/
structure FDCAN_RelPackFc_t where
  fc_volt : Nat
  fc_curr : Nat
deriving DecidableEq

/-- Declared FDCAN byte length of `FDCAN_RelPackFc_t`. -/
def FDCAN_RelPackFc_t.FDCAN_BYTES : Nat := 8

/-- CAN identifier of `FDCAN_RelPackFc_t`. -/
def FDCAN_RelPackFc_t.FDCAN_ID : Nat := 0x017

/-- bincode big-endian fixed-width encoding of `FDCAN_RelPackFc_t`. -/
def FDCAN_RelPackFc_t.encode (r : FDCAN_RelPackFc_t) : List Nat :=
  encBE32 r.fc_volt ++ encBE32 r.fc_curr

/-- bincode big-endian fixed-width decoding of `FDCAN_RelPackFc_t`; trailing bytes are
returned unconsumed, missing bytes are a decode fault (`none`). -/
def FDCAN_RelPackFc_t.decode (l : List Nat) : Option (FDCAN_RelPackFc_t × List Nat) := do
  let (v0, l) ← read32 l
  let (v1, l) ← read32 l
  return (⟨v0, v1⟩, l)

/-- Field values representable in the machine-integer layout of `FDCAN_RelPackFc_t`. -/
def FDCAN_RelPackFc_t.Representable (r : FDCAN_RelPackFc_t) : Prop :=
  r.fc_volt < 2 ^ 32 ∧ r.fc_curr < 2 ^ 32

/-- CAN package struct `FDCAN_FccPack1_t` from `eco_can.rs` (fields in declaration order). -/
structure FDCAN_FccPack1_t where
  fc_temp : Int
  fc_press : Nat
deriving DecidableEq

/-- Declared FDCAN byte length of `FDCAN_FccPack1_t`. -/
def FDCAN_FccPack1_t.FDCAN_BYTES : Nat := 8

/-- CAN identifier of `FDCAN_FccPack1_t`. -/
def FDCAN_FccPack1_t.FDCAN_ID : Nat := 0x020

/-- bincode big-endian fixed-width encoding of `FDCAN_FccPack1_t`. -/
def FDCAN_FccPack1_t.encode (r : FDCAN_FccPack1_t) : List Nat :=
  encI32 r.fc_temp ++ encBE32 r.fc_press

/-- bincode big-endian fixed-width decoding of `FDCAN_FccPack1_t`; trailing bytes are
returned unconsumed, missing bytes are a decode fault (`none`). -/
def FDCAN_FccPack1_t.decode (l : List Nat) : Option (FDCAN_FccPack1_t × List Nat) := do
  let (v0, l) ← readI32 l
  let (v1, l) ← read32 l
  return (⟨v0, v1⟩, l)

/-- Field values representable in the machine-integer layout of `FDCAN_FccPack1_t`. -/
def FDCAN_FccPack1_t.Representable (r : FDCAN_FccPack1_t) : Prop :=
  (-2 ^ 31 ≤ r.fc_temp ∧ r.fc_temp < 2 ^ 31) ∧ r.fc_press < 2 ^ 32

/-- CAN package struct `FDCAN_FccPack2_t` from `eco_can.rs` (fields in declaration order). -/
structure FDCAN_FccPack2_t where
  fan_rpm1 : Nat
  fan_rpm2 : Nat
deriving DecidableEq

/-- Declared FDCAN byte length of `FDCAN_FccPack2_t`. -/
def FDCAN_FccPack2_t.FDCAN_BYTES : Nat := 8

/-- CAN identifier of `FDCAN_FccPack2_t`. -/
def FDCAN_FccPack2_t.FDCAN_ID : Nat := 0x021

/-- bincode big-endian fixed-width encoding of `FDCAN_FccPack2_t`. -/
def FDCAN_FccPack2_t.encode (r : FDCAN_FccPack2_t) : List Nat :=
  encBE32 r.fan_rpm1 ++ encBE32 r.fan_rpm2

/-- bincode big-endian fixed-width decoding of `FDCAN_FccPack2_t`; trailing bytes are
returned unconsumed, missing bytes are a decode fault (`none`). -/
def FDCAN_FccPack2_t.decode (l : List Nat) : Option (FDCAN_FccPack2_t × List Nat) := do
  let (v0, l) ← read32 l
  let (v1, l) ← read32 l
  return (⟨v0, v1⟩, l)

/-- Field values representable in the machine-integer layout of `FDCAN_FccPack2_t`. -/
def FDCAN_FccPack2_t.Representable (r : FDCAN_FccPack2_t) : Prop :=
  r.fan_rpm1 < 2 ^ 32 ∧ r.fan_rpm2 < 2 ^ 32

/-- CAN package struct `FDCAN_FccPack3_t` from `eco_can.rs` (fields in declaration order). -/
structure FDCAN_FccPack3_t where
  bme_temp : Nat
  bme_humid : Nat
deriving DecidableEq

/-- Declared FDCAN byte length of `FDCAN_FccPack3_t`. -/
def FDCAN_FccPack3_t.FDCAN_BYTES : Nat := 8

/-- CAN identifier of `FDCAN_FccPack3_t`. -/
def FDCAN_FccPack3_t.FDCAN_ID : Nat := 0x022

/-- bincode big-endian fixed-width encoding of `FDCAN_FccPack3_t`. -/
def FDCAN_FccPack3_t.encode (r : FDCAN_FccPack3_t) : List Nat :=
  encBE32 r.bme_temp ++ encBE32 r.bme_humid

/-- bincode big-endian fixed-width decoding of `FDCAN_FccPack3_t`; trailing bytes are
returned unconsumed, missing bytes are a decode fault (`none`). -/
def FDCAN_FccPack3_t.decode (l : List Nat) : Option (FDCAN_FccPack3_t × List Nat) := do
  let (v0, l) ← read32 l
  let (v1, l) ← read32 l
  return (⟨v0, v1⟩, l)

/-- Field values representable in the machine-integer layout of `FDCAN_FccPack3_t`. -/
def FDCAN_FccPack3_t.Representable (r : FDCAN_FccPack3_t) : Prop :=
  r.bme_temp < 2 ^ 32 ∧ r.bme_humid < 2 ^ 32

/-- CAN package struct `ECOCAN_H2Pack1_t` from `eco_can.rs` (fields in declaration order). -/
structure ECOCAN_H2Pack1_t where
  h2_sense_1 : Nat
  h2_sense_2 : Nat
  h2_sense_3 : Nat
  h2_sense_4 : Nat
deriving DecidableEq

/-- Declared FDCAN byte length of `ECOCAN_H2Pack1_t`. -/
def ECOCAN_H2Pack1_t.FDCAN_BYTES : Nat := 8

/-- CAN identifier of `ECOCAN_H2Pack1_t`. -/
def ECOCAN_H2Pack1_t.FDCAN_ID : Nat := 0x030

/-- bincode big-endian fixed-width encoding of `ECOCAN_H2Pack1_t`. -/
def ECOCAN_H2Pack1_t.encode (r : ECOCAN_H2Pack1_t) : List Nat :=
  encBE16 r.h2_sense_1 ++ encBE16 r.h2_sense_2 ++ encBE16 r.h2_sense_3 ++ encBE16 r.h2_sense_4

/-- bincode big-endian fixed-width decoding of `ECOCAN_H2Pack1_t`; trailing bytes are
returned unconsumed, missing bytes are a decode fault (`none`). -/
def ECOCAN_H2Pack1_t.decode (l : List Nat) : Option (ECOCAN_H2Pack1_t × List Nat) := do
  let (v0, l) ← read16 l
  let (v1, l) ← read16 l
  let (v2, l) ← read16 l
  let (v3, l) ← read16 l
  return (⟨v0, v1, v2, v3⟩, l)

/-- Field values representable in the machine-integer layout of `ECOCAN_H2Pack1_t`. -/
def ECOCAN_H2Pack1_t.Representable (r : ECOCAN_H2Pack1_t) : Prop :=
  r.h2_sense_1 < 2 ^ 16 ∧ r.h2_sense_2 < 2 ^ 16 ∧ r.h2_sense_3 < 2 ^ 16 ∧ r.h2_sense_4 < 2 ^ 16

/-- CAN package struct `ECOCAN_H2Pack2_t` from `eco_can.rs` (fields in declaration order). -/
structure ECOCAN_H2Pack2_t where
  bme_temp : Nat
  bme_humid : Nat
  imon_7v : Nat
  imon_12v : Nat
deriving DecidableEq

/-- Declared FDCAN byte length of `ECOCAN_H2Pack2_t`. -/
def ECOCAN_H2Pack2_t.FDCAN_BYTES : Nat := 8

/-- CAN identifier of `ECOCAN_H2Pack2_t`. -/
def ECOCAN_H2Pack2_t.FDCAN_ID : Nat := 0x031

/-- bincode big-endian fixed-width encoding of `ECOCAN_H2Pack2_t`. -/
def ECOCAN_H2Pack2_t.encode (r : ECOCAN_H2Pack2_t) : List Nat :=
  encBE16 r.bme_temp ++ encBE16 r.bme_humid ++ encBE16 r.imon_7v ++ encBE16 r.imon_12v

/-- bincode big-endian fixed-width decoding of `ECOCAN_H2Pack2_t`; trailing bytes are
returned unconsumed, missing bytes are a decode fault (`none`). -/
def ECOCAN_H2Pack2_t.decode (l : List Nat) : Option (ECOCAN_H2Pack2_t × List Nat) := do
  let (v0, l) ← read16 l
  let (v1, l) ← read16 l
  let (v2, l) ← read16 l
  let (v3, l) ← read16 l
  return (⟨v0, v1, v2, v3⟩, l)

/-- Field values representable in the machine-integer layout of `ECOCAN_H2Pack2_t`. -/
def ECOCAN_H2Pack2_t.Representable (r : ECOCAN_H2Pack2_t) : Prop :=
  r.bme_temp < 2 ^ 16 ∧ r.bme_humid < 2 ^ 16 ∧ r.imon_7v < 2 ^ 16 ∧ r.imon_12v < 2 ^ 16

/-- CAN package struct `ECOCAN_H2_ARM_ALARM_t` from `eco_can.rs` (fields in declaration order). -/
structure ECOCAN_H2_ARM_ALARM_t where
  h2_alarm_armed : Nat
deriving DecidableEq

/-- Declared FDCAN byte length of `ECOCAN_H2_ARM_ALARM_t`. -/
def ECOCAN_H2_ARM_ALARM_t.FDCAN_BYTES : Nat := 1

/-- CAN identifier of `ECOCAN_H2_ARM_ALARM_t`. -/
def ECOCAN_H2_ARM_ALARM_t.FDCAN_ID : Nat := 0x032

/-- bincode big-endian fixed-width encoding of `ECOCAN_H2_ARM_ALARM_t`. -/
def ECOCAN_H2_ARM_ALARM_t.encode (r : ECOCAN_H2_ARM_ALARM_t) : List Nat :=
  encBE8 r.h2_alarm_armed

/-- bincode big-endian fixed-width decoding of `ECOCAN_H2_ARM_ALARM_t`; trailing bytes are
returned unconsumed, missing bytes are a decode fault (`none`). -/
def ECOCAN_H2_ARM_ALARM_t.decode (l : List Nat) : Option (ECOCAN_H2_ARM_ALARM_t × List Nat) := do
  let (v0, l) ← read8 l
  return (⟨v0⟩, l)

/-- Field values representable in the machine-integer layout of `ECOCAN_H2_ARM_ALARM_t`. -/
def ECOCAN_H2_ARM_ALARM_t.Representable (r : ECOCAN_H2_ARM_ALARM_t) : Prop :=
  r.h2_alarm_armed < 2 ^ 8

/-- CAN package struct `FDCAN_BOOSTPack1_t` from `eco_can.rs` (fields in declaration order). -/
structure FDCAN_BOOSTPack1_t where
  in_curr : Nat
  in_volt : Nat
deriving DecidableEq

/-- Declared FDCAN byte length of `FDCAN_BOOSTPack1_t`. -/
def FDCAN_BOOSTPack1_t.FDCAN_BYTES : Nat := 8

/-- CAN identifier of `FDCAN_BOOSTPack1_t`. -/
def FDCAN_BOOSTPack1_t.FDCAN_ID : Nat := 0x040

/-- bincode big-endian fixed-width encoding of `FDCAN_BOOSTPack1_t`. -/
def FDCAN_BOOSTPack1_t.encode (r : FDCAN_BOOSTPack1_t) : List Nat :=
  encBE32 r.in_curr ++ encBE32 r.in_volt

/-- bincode big-endian fixed-width decoding of `FDCAN_BOOSTPack1_t`; trailing bytes are
returned unconsumed, missing bytes are a decode fault (`none`). -/
def FDCAN_BOOSTPack1_t.decode (l : List Nat) : Option (FDCAN_BOOSTPack1_t × List Nat) := do
  let (v0, l) ← read32 l
  let (v1, l) ← read32 l
  return (⟨v0, v1⟩, l)

/-- Field values representable in the machine-integer layout of `FDCAN_BOOSTPack1_t`. -/
def FDCAN_BOOSTPack1_t.Representable (r : FDCAN_BOOSTPack1_t) : Prop :=
  r.in_curr < 2 ^ 32 ∧ r.in_volt < 2 ^ 32

/-- CAN package struct `FDCAN_BOOSTPack2_t` from `eco_can.rs` (fields in declaration order). -/
structure FDCAN_BOOSTPack2_t where
  out_curr : Nat
  out_volt : Nat
deriving DecidableEq

/-- Declared FDCAN byte length of `FDCAN_BOOSTPack2_t`. -/
def FDCAN_BOOSTPack2_t.FDCAN_BYTES : Nat := 8

/-- CAN identifier of `FDCAN_BOOSTPack2_t`. -/
def FDCAN_BOOSTPack2_t.FDCAN_ID : Nat := 0x041

/-- bincode big-endian fixed-width encoding of `FDCAN_BOOSTPack2_t`. -/
def FDCAN_BOOSTPack2_t.encode (r : FDCAN_BOOSTPack2_t) : List Nat :=
  encBE32 r.out_curr ++ encBE32 r.out_volt

/-- bincode big-endian fixed-width decoding of `FDCAN_BOOSTPack2_t`; trailing bytes are
returned unconsumed, missing bytes are a decode fault (`none`). -/
def FDCAN_BOOSTPack2_t.decode (l : List Nat) : Option (FDCAN_BOOSTPack2_t × List Nat) := do
  let (v0, l) ← read32 l
  let (v1, l) ← read32 l
  return (⟨v0, v1⟩, l)

/-- Field values representable in the machine-integer layout of `FDCAN_BOOSTPack2_t`. -/
def FDCAN_BOOSTPack2_t.Representable (r : FDCAN_BOOSTPack2_t) : Prop :=
  r.out_curr < 2 ^ 32 ∧ r.out_volt < 2 ^ 32

/-- CAN package struct `FDCAN_BOOSTPack3_t` from `eco_can.rs` (fields in declaration order). -/
structure FDCAN_BOOSTPack3_t where
  efficiency : Nat
  joules : Nat
deriving DecidableEq

/-- Declared FDCAN byte length of `FDCAN_BOOSTPack3_t`. -/
def FDCAN_BOOSTPack3_t.FDCAN_BYTES : Nat := 8

/-- CAN identifier of `FDCAN_BOOSTPack3_t`. -/
def FDCAN_BOOSTPack3_t.FDCAN_ID : Nat := 0x042

/-- bincode big-endian fixed-width encoding of `FDCAN_BOOSTPack3_t`. -/
def FDCAN_BOOSTPack3_t.encode (r : FDCAN_BOOSTPack3_t) : List Nat :=
  encBE32 r.efficiency ++ encBE32 r.joules

/-- bincode big-endian fixed-width decoding of `FDCAN_BOOSTPack3_t`; trailing bytes are
returned unconsumed, missing bytes are a decode fault (`none`). -/
def FDCAN_BOOSTPack3_t.decode (l : List Nat) : Option (FDCAN_BOOSTPack3_t × List Nat) := do
  let (v0, l) ← read32 l
  let (v1, l) ← read32 l
  return (⟨v0, v1⟩, l)

/-- Field values representable in the machine-integer layout of `FDCAN_BOOSTPack3_t`. -/
def FDCAN_BOOSTPack3_t.Representable (r : FDCAN_BOOSTPack3_t) : Prop :=
  r.efficiency < 2 ^ 32 ∧ r.joules < 2 ^ 32

/-- CAN package struct `FDCAN_BATTPack2_t` from `eco_can.rs` (fields in declaration order). -/
structure FDCAN_BATTPack2_t where
  out_curr : Nat
  out_volt : Nat
deriving DecidableEq

/-- Declared FDCAN byte length of `FDCAN_BATTPack2_t`. -/
def FDCAN_BATTPack2_t.FDCAN_BYTES : Nat := 4

/-- CAN identifier of `FDCAN_BATTPack2_t`. -/
def FDCAN_BATTPack2_t.FDCAN_ID : Nat := 0x050

/-- bincode big-endian fixed-width encoding of `FDCAN_BATTPack2_t`. -/
def FDCAN_BATTPack2_t.encode (r : FDCAN_BATTPack2_t) : List Nat :=
  encBE16 r.out_curr ++ encBE16 r.out_volt

/-- bincode big-endian fixed-width decoding of `FDCAN_BATTPack2_t`; trailing bytes are
returned unconsumed, missing bytes are a decode fault (`none`). -/
def FDCAN_BATTPack2_t.decode (l : List Nat) : Option (FDCAN_BATTPack2_t × List Nat) := do
  let (v0, l) ← read16 l
  let (v1, l) ← read16 l
  return (⟨v0, v1⟩, l)

/-- Field values representable in the machine-integer layout of `FDCAN_BATTPack2_t`. -/
def FDCAN_BATTPack2_t.Representable (r : FDCAN_BATTPack2_t) : Prop :=
  r.out_curr < 2 ^ 16 ∧ r.out_volt < 2 ^ 16

/-- Bit definitions for the REL board state, from `eco_can.rs` `RelayBit`. -/
def RelayBit.ALL_RELAY_OFF : Nat := 0x00

/-- Relay bit `CAP_RELAY` (0x01). -/
def RelayBit.CAP_RELAY : Nat := 0x01

/-- Relay bit `RES_RELAY` (0x02). -/
def RelayBit.RES_RELAY : Nat := 0x02

/-- Relay bit `DSCHRGE_RELAY` (0x04). -/
def RelayBit.DSCHRGE_RELAY : Nat := 0x04

/-- Relay bit `MTR_RELAY` (0x08). -/
def RelayBit.MTR_RELAY : Nat := 0x08

/-- Relay board state enumeration from `eco_can.rs` `RelayState`. -/
inductive RelayState where
  | RELAY_STBY
  | RELAY_STRTP
  | RELAY_CHRGE
  | RELAY_RUN
deriving DecidableEq

/-- Byte pattern of each `RelayState` value, the OR-combination of relay bits
given by the `RelayState` discriminants in `eco_can.rs`. -/
def RelayState.toByte : RelayState → Nat
  | .RELAY_STBY => RelayBit.ALL_RELAY_OFF
  | .RELAY_STRTP => RelayBit.RES_RELAY ||| RelayBit.DSCHRGE_RELAY
  | .RELAY_CHRGE => RelayBit.RES_RELAY
  | .RELAY_RUN => RelayBit.CAP_RELAY ||| RelayBit.DSCHRGE_RELAY ||| RelayBit.MTR_RELAY

/-- Modelled from the spec: `RelayState::try_from(u8)` is invoked by
`decode_can_frame` in `can_mod.rs` but its definition is not under `src/`.
Per spec §3 and §4.4 the received byte is validated against the enumerated
legal bit patterns (standby, startup, charge, run, the discriminants of
`RelayState` in `eco_can.rs`) and any byte matching none of them is
rejected. -/
def RelayState.tryFrom (b : Nat) : Option RelayState :=
  if b = RelayState.RELAY_STBY.toByte then some .RELAY_STBY
  else if b = RelayState.RELAY_STRTP.toByte then some .RELAY_STRTP
  else if b = RelayState.RELAY_CHRGE.toByte then some .RELAY_CHRGE
  else if b = RelayState.RELAY_RUN.toByte then some .RELAY_RUN
  else none

/-- Relay state CAN identifier, `FDCAN_RELSTATE_ID` in `eco_can.rs`
(also used as `RelayState::FDCAN_ID` in `can_mod.rs`). -/
def FDCAN_RELSTATE_ID : Nat := 0x018

/-- TX buffer depth `TX_BUF_SIZE` from `can_mod.rs`. -/
def TX_BUF_SIZE : Nat := 1

/-- RX buffer depth `RX_BUF_SIZE` from `can_mod.rs`. -/
def RX_BUF_SIZE : Nat := 20

/-- The shared mutable state of `can_mod.rs`: one slot per `static Mutex`
(`RELAY_STATE`, `FET_DATA`, `FCC_PACK1_DATA`, ..., `RELAY_MOTOR_PACK`). -/
structure CanState where
  relay_state : RelayState
  fet_data : FDCAN_FetPack_t
  fcc_pack1_data : FDCAN_FccPack1_t
  fcc_pack2_data : FDCAN_FccPack2_t
  fcc_pack3_data : FDCAN_FccPack3_t
  h2_pack1_data : ECOCAN_H2Pack1_t
  h2_pack2_data : ECOCAN_H2Pack2_t
  boost_pack1_data : FDCAN_BOOSTPack1_t
  boost_pack2_data : FDCAN_BOOSTPack2_t
  boost_pack3_data : FDCAN_BOOSTPack3_t
  rel_fc_pack : FDCAN_RelPackFc_t
  rel_cap_pack : FDCAN_RelPackCap_t
  relay_motor_pack : FDCAN_RelPackMtr_t
deriving DecidableEq

/-- The initial values of the static mutexes in `can_mod.rs`: relay state
standby, every package field zero. -/
def initialCanState : CanState where
  relay_state := .RELAY_STBY
  fet_data := ⟨0, 0, 0, 0, 0, 0⟩
  fcc_pack1_data := ⟨0, 0⟩
  fcc_pack2_data := ⟨0, 0⟩
  fcc_pack3_data := ⟨0, 0⟩
  h2_pack1_data := ⟨0, 0, 0, 0⟩
  h2_pack2_data := ⟨0, 0, 0, 0⟩
  boost_pack1_data := ⟨0, 0⟩
  boost_pack2_data := ⟨0, 0⟩
  boost_pack3_data := ⟨0, 0⟩
  rel_fc_pack := ⟨0, 0⟩
  rel_cap_pack := ⟨0, 0⟩
  relay_motor_pack := ⟨0, 0⟩

/-- An inbound CAN frame after identifier normalization: the `u32` value of
the standard or extended identifier, and the payload bytes
`frame.data()[..frame.header().len()]`. -/
structure Frame where
  id : Nat
  data : List Nat

/-- Outcome of `decode_can_frame`: `ok` models `Ok(())`, `decodeErr` models
`Err(DecodeError)`, and `oobPanic` models the out-of-bounds index fault of
`rx_data[0]` on an empty payload (which in the code aborts the task rather
than returning). -/
inductive RouteResult where
  | ok
  | decodeErr
  | oobPanic
deriving DecidableEq

/-- Model of `decode_can_data` in `can_mod.rs`: lock the slot, decode the
received bytes with the big-endian fixed-int bincode configuration, and
store the decoded value; on a decode fault the `?` operator returns before
the slot is assigned, leaving the state unchanged. -/
def decode_can_data {T : Type} (dec : List Nat → Option (T × List Nat))
    (st : CanState) (set : CanState → T → CanState) (rx_data : List Nat) :
    RouteResult × CanState :=
  match dec rx_data with
  | some (v, _) => (.ok, set st v)
  | none => (.decodeErr, st)

/-- Model of `decode_can_frame` in `can_mod.rs`: match the frame identifier
against the package identifiers (in source order) and decode into the
matching slot; an unmatched identifier only logs and returns `Ok(())`.  The
relay-state arm indexes `rx_data[0]` before validating, so an empty payload
is an out-of-bounds fault (`oobPanic`). -/
def decode_can_frame (frame : Frame) (st : CanState) : RouteResult × CanState :=
  if frame.id = FDCAN_RELSTATE_ID then
    match frame.data with
    | [] => (.oobPanic, st)
    | b :: _ =>
      match RelayState.tryFrom b with
      | some r => (.ok, { st with relay_state := r })
      | none => (.decodeErr, st)
  else if frame.id = FDCAN_FccPack1_t.FDCAN_ID then
    decode_can_data FDCAN_FccPack1_t.decode st
      (fun s v => { s with fcc_pack1_data := v }) frame.data
  else if frame.id = FDCAN_FccPack2_t.FDCAN_ID then
    decode_can_data FDCAN_FccPack2_t.decode st
      (fun s v => { s with fcc_pack2_data := v }) frame.data
  else if frame.id = FDCAN_FccPack3_t.FDCAN_ID then
    decode_can_data FDCAN_FccPack3_t.decode st
      (fun s v => { s with fcc_pack3_data := v }) frame.data
  else if frame.id = FDCAN_FetPack_t.FDCAN_ID then
    decode_can_data FDCAN_FetPack_t.decode st
      (fun s v => { s with fet_data := v }) frame.data
  else if frame.id = FDCAN_RelPackMtr_t.FDCAN_ID then
    decode_can_data FDCAN_RelPackMtr_t.decode st
      (fun s v => { s with relay_motor_pack := v }) frame.data
  else if frame.id = FDCAN_RelPackCap_t.FDCAN_ID then
    decode_can_data FDCAN_RelPackCap_t.decode st
      (fun s v => { s with rel_cap_pack := v }) frame.data
  else if frame.id = FDCAN_RelPackFc_t.FDCAN_ID then
    decode_can_data FDCAN_RelPackFc_t.decode st
      (fun s v => { s with rel_fc_pack := v }) frame.data
  else if frame.id = ECOCAN_H2Pack1_t.FDCAN_ID then
    decode_can_data ECOCAN_H2Pack1_t.decode st
      (fun s v => { s with h2_pack1_data := v }) frame.data
  else if frame.id = ECOCAN_H2Pack2_t.FDCAN_ID then
    decode_can_data ECOCAN_H2Pack2_t.decode st
      (fun s v => { s with h2_pack2_data := v }) frame.data
  else if frame.id = FDCAN_BOOSTPack1_t.FDCAN_ID then
    decode_can_data FDCAN_BOOSTPack1_t.decode st
      (fun s v => { s with boost_pack1_data := v }) frame.data
  else if frame.id = FDCAN_BOOSTPack2_t.FDCAN_ID then
    decode_can_data FDCAN_BOOSTPack2_t.decode st
      (fun s v => { s with boost_pack2_data := v }) frame.data
  else if frame.id = FDCAN_BOOSTPack3_t.FDCAN_ID then
    decode_can_data FDCAN_BOOSTPack3_t.decode st
      (fun s v => { s with boost_pack3_data := v }) frame.data
  else
    (.ok, st)

/-- The identifiers `decode_can_frame` matches, in source order. -/
def routedIds : List Nat :=
  [FDCAN_RELSTATE_ID,
   FDCAN_FccPack1_t.FDCAN_ID, FDCAN_FccPack2_t.FDCAN_ID, FDCAN_FccPack3_t.FDCAN_ID,
   FDCAN_FetPack_t.FDCAN_ID,
   FDCAN_RelPackMtr_t.FDCAN_ID, FDCAN_RelPackCap_t.FDCAN_ID, FDCAN_RelPackFc_t.FDCAN_ID,
   ECOCAN_H2Pack1_t.FDCAN_ID, ECOCAN_H2Pack2_t.FDCAN_ID,
   FDCAN_BOOSTPack1_t.FDCAN_ID, FDCAN_BOOSTPack2_t.FDCAN_ID, FDCAN_BOOSTPack3_t.FDCAN_ID]

/-- Model of `process_rx_can_frame`: decode the frame and swallow (log) any
decode error, so the ingress loop continues regardless of the outcome. -/
def process_rx_can_frame (frame : Frame) (st : CanState) : CanState :=
  (decode_can_frame frame st).2

/-- Model of `drain_rx_can_buffer` in `can_mod.rs`: at most `RX_BUF_SIZE`
iterations of `try_receive`; each immediately available frame is routed,
and the loop returns as soon as `try_receive` yields no frame.  `buf` is
the queue of frames immediately available in the RX buffer; the result is
the final state and the number of frames routed. -/
def drain_rx_can_buffer : Nat → List Frame → CanState → CanState × Nat
  | 0, _, st => (st, 0)
  | _ + 1, [], st => (st, 0)
  | fuel + 1, f :: rest, st =>
    let st1 := process_rx_can_frame f st
    let (st2, k) := drain_rx_can_buffer fuel rest st1
    (st2, k + 1)

/-- bincode `EncodeError` as produced by `encode_into_slice`: the slice
cannot hold the encoding. -/
inductive EncodeError where
  | UnexpectedEnd
deriving DecidableEq

/-- Model of `bincode::encode_into_slice` with the big-endian fixed-int
configuration: writes the encoded bytes into the caller's buffer of
capacity `cap` and returns the bytes written together with their count, or
fails when the buffer is too small. -/
def encode_into_slice (bytes : List Nat) (cap : Nat) :
    Except EncodeError (List Nat × Nat) :=
  if bytes.length ≤ cap then .ok (bytes, bytes.length) else .error .UnexpectedEnd

/-- Model of `encode_can_package` in `can_mod.rs`: lock the slot (here the
slot value `slot` is passed directly) and encode it into the caller's
`tx_data` buffer of capacity `cap`. -/
def encode_can_package {T : Type} (enc : T → List Nat) (slot : T) (cap : Nat) :
    Except EncodeError (List Nat × Nat) :=
  encode_into_slice (enc slot) cap

/-- Model of one iteration of the debug transmit loop in `can_receive_task`
(`can_mod.rs` lines 120-136): increment `RELAY_MOTOR_PACK.mtr_volt`, encode
`RELAY_MOTOR_PACK`, and build the outbound frame with identifier
`FDCAN_RelPackCap_t::FDCAN_ID` and data `tx_data[..tx_len]`.  Returns the
new state and the outbound frame. -/
def can_receive_debug_step (st : CanState) : CanState × Frame :=
  let st1 := { st with relay_motor_pack :=
    { st.relay_motor_pack with mtr_volt := st.relay_motor_pack.mtr_volt + 1 } }
  (st1, ⟨FDCAN_RelPackCap_t.FDCAN_ID, FDCAN_RelPackMtr_t.encode st1.relay_motor_pack⟩)

/-- Model of the latency delta computed in `can_task` (`main.rs`):
`(ts - last_read_ts).as_millis()` where the subtraction is
`embassy_time::Instant::duration_since`, an unchecked `u64` tick
subtraction.  Timestamps are tick counts; `none` models the arithmetic
underflow fault raised when `ts < last` (the code does not clamp). -/
def can_task_delta (ts last : Nat) : Option Nat :=
  if last ≤ ts then some (ts - last) else none

theorem RelayState.toByte_STBY : RelayState.RELAY_STBY.toByte = 0x00 := rfl

theorem RelayState.toByte_STRTP : RelayState.RELAY_STRTP.toByte = 0x06 := rfl

theorem RelayState.toByte_CHRGE : RelayState.RELAY_CHRGE.toByte = 0x02 := rfl

theorem RelayState.toByte_RUN : RelayState.RELAY_RUN.toByte = 0x0D := rfl

theorem drain_rx_count (fuel : Nat) (buf : List Frame) (st : CanState) :
    (drain_rx_can_buffer fuel buf st).2 = min fuel buf.length := by
  induction fuel generalizing buf st with
  | zero => simp [drain_rx_can_buffer]
  | succ n ih =>
    cases buf with
    | nil => simp [drain_rx_can_buffer]
    | cons f rest =>
      rcases hdr : drain_rx_can_buffer n rest (process_rx_can_frame f st) with ⟨st2, k⟩
      have hk := ih rest (process_rx_can_frame f st)
      rw [hdr] at hk
      simp only [drain_rx_can_buffer, hdr, List.length_cons]
      simp at hk
      omega

/-- Claim C1 (code evaluation at the failing input): routing a frame with
identifier 0x018 and a zero-length payload hits the unchecked `rx_data[0]`
index in `decode_can_frame` and faults out of bounds instead of returning a
`TruncatedInput` decode error; the state is the last state before the
fault. -/
theorem C1_relay_empty_payload_faults :
    decode_can_frame ⟨FDCAN_RELSTATE_ID, []⟩ initialCanState =
      (.oobPanic, initialCanState) := rfl

/-- Claim C2: routing a frame with identifier 0x015 and big-endian payload
`00 00 00 05 00 00 00 0A` succeeds and leaves the motor slot holding
`{mtr_volt := 5, mtr_curr := 10}`, every other slot unchanged. -/
theorem C2_motor_frame_decodes (st : CanState) :
    decode_can_frame ⟨FDCAN_RelPackMtr_t.FDCAN_ID, [0, 0, 0, 5, 0, 0, 0, 10]⟩ st =
      (.ok, { st with relay_motor_pack := ⟨5, 10⟩ }) := rfl

/-- Claim C6 (code evaluation showing the divergence): the debug egress step
in `can_receive_task` encodes the motor slot (`RELAY_MOTOR_PACK`, descriptor
0x015) but stamps the outbound frame with `FDCAN_RelPackCap_t::FDCAN_ID`
(0x016), so the frame identifier is not the catalog identifier of the
descriptor whose Store value the data encodes. -/
theorem C6_egress_id_mismatch (st : CanState) :
    (can_receive_debug_step st).2.data =
        FDCAN_RelPackMtr_t.encode (can_receive_debug_step st).1.relay_motor_pack
    ∧ (can_receive_debug_step st).2.id = FDCAN_RelPackCap_t.FDCAN_ID
    ∧ FDCAN_RelPackCap_t.FDCAN_ID ≠ FDCAN_RelPackMtr_t.FDCAN_ID :=
  ⟨rfl, rfl, by decide⟩

/-- Claim C7 (code evaluation at the failing input): when the current
timestamp is one tick older than the previous one, the latency delta of
`can_task` is the underflow fault of the unchecked `Instant` subtraction
(`none`), not a clamped zero or an "unknown" report. -/
theorem C7_delta_underflow_faults :
    can_task_delta 0 1 = none ∧ can_task_delta 0 1 ≠ some 0 := by decide

/-- Claim C9: one drain phase of the ingress pump routes exactly
`min RX_BUF_SIZE (number of immediately available frames)` frames, hence at
most the configured receive-buffer capacity `RX_BUF_SIZE = 20`, returning as
soon as no further frame is immediately available. -/
theorem C9_drain_bounded (buf : List Frame) (st : CanState) :
    (drain_rx_can_buffer RX_BUF_SIZE buf st).2 = min RX_BUF_SIZE buf.length
    ∧ (drain_rx_can_buffer RX_BUF_SIZE buf st).2 ≤ RX_BUF_SIZE
    ∧ RX_BUF_SIZE = 20 := by
  have h := drain_rx_count RX_BUF_SIZE buf st
  exact ⟨h, by omega, rfl⟩

/-- Claim C3: a frame whose identifier matches no routed catalog identifier
yields the non-error outcome `Ok(())` and leaves every slot unchanged, so
the result never propagates as a failure to the ingress loop. -/
theorem C3_unmatched_id_noop (f : Frame) (st : CanState) (h : f.id ∉ routedIds) :
    decode_can_frame f st = (.ok, st) := by
  simp only [routedIds, FDCAN_RELSTATE_ID, FDCAN_FccPack1_t.FDCAN_ID, FDCAN_FccPack2_t.FDCAN_ID, FDCAN_FccPack3_t.FDCAN_ID, FDCAN_FetPack_t.FDCAN_ID, FDCAN_RelPackMtr_t.FDCAN_ID, FDCAN_RelPackCap_t.FDCAN_ID, FDCAN_RelPackFc_t.FDCAN_ID, ECOCAN_H2Pack1_t.FDCAN_ID, ECOCAN_H2Pack2_t.FDCAN_ID, FDCAN_BOOSTPack1_t.FDCAN_ID, FDCAN_BOOSTPack2_t.FDCAN_ID, FDCAN_BOOSTPack3_t.FDCAN_ID,
    List.mem_cons, List.not_mem_nil, or_false, not_or] at h
  obtain ⟨h1, h2, h3, h4, h5, h6, h7, h8, h9, h10, h11, h12, h13⟩ := h
  simp [decode_can_frame, FDCAN_RELSTATE_ID, FDCAN_FccPack1_t.FDCAN_ID, FDCAN_FccPack2_t.FDCAN_ID, FDCAN_FccPack3_t.FDCAN_ID, FDCAN_FetPack_t.FDCAN_ID, FDCAN_RelPackMtr_t.FDCAN_ID, FDCAN_RelPackCap_t.FDCAN_ID, FDCAN_RelPackFc_t.FDCAN_ID, ECOCAN_H2Pack1_t.FDCAN_ID, ECOCAN_H2Pack2_t.FDCAN_ID, FDCAN_BOOSTPack1_t.FDCAN_ID, FDCAN_BOOSTPack2_t.FDCAN_ID, FDCAN_BOOSTPack3_t.FDCAN_ID,
    h1, h2, h3, h4, h5, h6, h7, h8, h9, h10, h11, h12, h13]

theorem C3_unmatched_id_noop_witness :
    decode_can_frame ⟨0x999, [1, 2, 3]⟩ initialCanState = (.ok, initialCanState) :=
  C3_unmatched_id_noop ⟨0x999, [1, 2, 3]⟩ initialCanState (by decide)

/-- Claim C4: a 1-byte payload under identifier 0x018 is accepted exactly
when it equals one of the enumerated `RelayState` bit patterns (standby
0x00, startup 0x06, charge 0x02, run 0x0D); on acceptance the relay slot is
set to the matched state (0x00 yields standby), and on any other byte the
outcome is a rejection and the relay slot (indeed the whole state) keeps
its prior value. -/
theorem C4_relay_byte_validation (st : CanState) (b : Nat) :
    ((RelayState.tryFrom b).isSome ↔ (b = 0x00 ∨ b = 0x06 ∨ b = 0x02 ∨ b = 0x0D))
    ∧ (∀ r, RelayState.tryFrom b = some r →
        decode_can_frame ⟨FDCAN_RELSTATE_ID, [b]⟩ st =
          (.ok, { st with relay_state := r }))
    ∧ (RelayState.tryFrom b = none →
        decode_can_frame ⟨FDCAN_RELSTATE_ID, [b]⟩ st = (.decodeErr, st))
    ∧ RelayState.tryFrom 0x00 = some .RELAY_STBY
    ∧ RelayState.tryFrom 0xFF = none := by
  refine ⟨?_, ?_, ?_, rfl, rfl⟩
  · simp only [RelayState.tryFrom, RelayState.toByte_STBY, RelayState.toByte_STRTP,
      RelayState.toByte_CHRGE, RelayState.toByte_RUN]
    split_ifs with e1 e2 e3 e4 <;> simp_all
  · intro r hr
    simp [decode_can_frame, hr]
  · intro hn
    simp [decode_can_frame, hn]

theorem C4_relay_byte_validation_witness :
    decode_can_frame ⟨FDCAN_RELSTATE_ID, [0x00]⟩ initialCanState =
        (.ok, { initialCanState with relay_state := .RELAY_STBY })
    ∧ decode_can_frame ⟨FDCAN_RELSTATE_ID, [0xFF]⟩ initialCanState =
        (.decodeErr, initialCanState) :=
  ⟨(C4_relay_byte_validation initialCanState 0x00).2.1 .RELAY_STBY (by decide),
   (C4_relay_byte_validation initialCanState 0xFF).2.2.1 (by decide)⟩

/-- State characterization of `decode_can_frame`: the post state is either
unchanged or a single-slot update of the slot matching the frame
identifier. -/
theorem decode_can_frame_state_cases (fid : Nat) (fdata : List Nat) (st : CanState) :
    (decode_can_frame ⟨fid, fdata⟩ st).2 = st
    ∨ (fid = FDCAN_RELSTATE_ID ∧ ∃ r, (decode_can_frame ⟨fid, fdata⟩ st).2 = { st with relay_state := r })
    ∨ (fid = FDCAN_FccPack1_t.FDCAN_ID ∧ ∃ v, (decode_can_frame ⟨fid, fdata⟩ st).2 = { st with fcc_pack1_data := v })
    ∨ (fid = FDCAN_FccPack2_t.FDCAN_ID ∧ ∃ v, (decode_can_frame ⟨fid, fdata⟩ st).2 = { st with fcc_pack2_data := v })
    ∨ (fid = FDCAN_FccPack3_t.FDCAN_ID ∧ ∃ v, (decode_can_frame ⟨fid, fdata⟩ st).2 = { st with fcc_pack3_data := v })
    ∨ (fid = FDCAN_FetPack_t.FDCAN_ID ∧ ∃ v, (decode_can_frame ⟨fid, fdata⟩ st).2 = { st with fet_data := v })
    ∨ (fid = FDCAN_RelPackMtr_t.FDCAN_ID ∧ ∃ v, (decode_can_frame ⟨fid, fdata⟩ st).2 = { st with relay_motor_pack := v })
    ∨ (fid = FDCAN_RelPackCap_t.FDCAN_ID ∧ ∃ v, (decode_can_frame ⟨fid, fdata⟩ st).2 = { st with rel_cap_pack := v })
    ∨ (fid = FDCAN_RelPackFc_t.FDCAN_ID ∧ ∃ v, (decode_can_frame ⟨fid, fdata⟩ st).2 = { st with rel_fc_pack := v })
    ∨ (fid = ECOCAN_H2Pack1_t.FDCAN_ID ∧ ∃ v, (decode_can_frame ⟨fid, fdata⟩ st).2 = { st with h2_pack1_data := v })
    ∨ (fid = ECOCAN_H2Pack2_t.FDCAN_ID ∧ ∃ v, (decode_can_frame ⟨fid, fdata⟩ st).2 = { st with h2_pack2_data := v })
    ∨ (fid = FDCAN_BOOSTPack1_t.FDCAN_ID ∧ ∃ v, (decode_can_frame ⟨fid, fdata⟩ st).2 = { st with boost_pack1_data := v })
    ∨ (fid = FDCAN_BOOSTPack2_t.FDCAN_ID ∧ ∃ v, (decode_can_frame ⟨fid, fdata⟩ st).2 = { st with boost_pack2_data := v })
    ∨ (fid = FDCAN_BOOSTPack3_t.FDCAN_ID ∧ ∃ v, (decode_can_frame ⟨fid, fdata⟩ st).2 = { st with boost_pack3_data := v })
    := by
  simp only [FDCAN_RELSTATE_ID, FDCAN_FccPack1_t.FDCAN_ID, FDCAN_FccPack2_t.FDCAN_ID, FDCAN_FccPack3_t.FDCAN_ID, FDCAN_FetPack_t.FDCAN_ID, FDCAN_RelPackMtr_t.FDCAN_ID, FDCAN_RelPackCap_t.FDCAN_ID, FDCAN_RelPackFc_t.FDCAN_ID, ECOCAN_H2Pack1_t.FDCAN_ID, ECOCAN_H2Pack2_t.FDCAN_ID, FDCAN_BOOSTPack1_t.FDCAN_ID, FDCAN_BOOSTPack2_t.FDCAN_ID, FDCAN_BOOSTPack3_t.FDCAN_ID]
  by_cases h1 : fid = 0x018
  · cases fdata with
    | nil => exact Or.inl (by simp [decode_can_frame, FDCAN_RELSTATE_ID, FDCAN_FccPack1_t.FDCAN_ID, FDCAN_FccPack2_t.FDCAN_ID, FDCAN_FccPack3_t.FDCAN_ID, FDCAN_FetPack_t.FDCAN_ID, FDCAN_RelPackMtr_t.FDCAN_ID, FDCAN_RelPackCap_t.FDCAN_ID, FDCAN_RelPackFc_t.FDCAN_ID, ECOCAN_H2Pack1_t.FDCAN_ID, ECOCAN_H2Pack2_t.FDCAN_ID, FDCAN_BOOSTPack1_t.FDCAN_ID, FDCAN_BOOSTPack2_t.FDCAN_ID, FDCAN_BOOSTPack3_t.FDCAN_ID, h1])
    | cons b rest =>
      rcases hr : RelayState.tryFrom b with _ | r
      · exact Or.inl (by simp [decode_can_frame, FDCAN_RELSTATE_ID, FDCAN_FccPack1_t.FDCAN_ID, FDCAN_FccPack2_t.FDCAN_ID, FDCAN_FccPack3_t.FDCAN_ID, FDCAN_FetPack_t.FDCAN_ID, FDCAN_RelPackMtr_t.FDCAN_ID, FDCAN_RelPackCap_t.FDCAN_ID, FDCAN_RelPackFc_t.FDCAN_ID, ECOCAN_H2Pack1_t.FDCAN_ID, ECOCAN_H2Pack2_t.FDCAN_ID, FDCAN_BOOSTPack1_t.FDCAN_ID, FDCAN_BOOSTPack2_t.FDCAN_ID, FDCAN_BOOSTPack3_t.FDCAN_ID, h1, hr])
      · exact Or.inr (Or.inl (⟨h1, r, by simp [decode_can_frame, FDCAN_RELSTATE_ID, FDCAN_FccPack1_t.FDCAN_ID, FDCAN_FccPack2_t.FDCAN_ID, FDCAN_FccPack3_t.FDCAN_ID, FDCAN_FetPack_t.FDCAN_ID, FDCAN_RelPackMtr_t.FDCAN_ID, FDCAN_RelPackCap_t.FDCAN_ID, FDCAN_RelPackFc_t.FDCAN_ID, ECOCAN_H2Pack1_t.FDCAN_ID, ECOCAN_H2Pack2_t.FDCAN_ID, FDCAN_BOOSTPack1_t.FDCAN_ID, FDCAN_BOOSTPack2_t.FDCAN_ID, FDCAN_BOOSTPack3_t.FDCAN_ID, h1, hr]⟩))
  · by_cases h2 : fid = 0x020
    · rcases hd : FDCAN_FccPack1_t.decode fdata with _ | ⟨⟨v, rr⟩⟩
      · exact Or.inl (by simp [decode_can_frame, decode_can_data, FDCAN_RELSTATE_ID, FDCAN_FccPack1_t.FDCAN_ID, FDCAN_FccPack2_t.FDCAN_ID, FDCAN_FccPack3_t.FDCAN_ID, FDCAN_FetPack_t.FDCAN_ID, FDCAN_RelPackMtr_t.FDCAN_ID, FDCAN_RelPackCap_t.FDCAN_ID, FDCAN_RelPackFc_t.FDCAN_ID, ECOCAN_H2Pack1_t.FDCAN_ID, ECOCAN_H2Pack2_t.FDCAN_ID, FDCAN_BOOSTPack1_t.FDCAN_ID, FDCAN_BOOSTPack2_t.FDCAN_ID, FDCAN_BOOSTPack3_t.FDCAN_ID, h1, h2, hd])
      · exact Or.inr (Or.inr (Or.inl (⟨h2, v, by simp [decode_can_frame, decode_can_data, FDCAN_RELSTATE_ID, FDCAN_FccPack1_t.FDCAN_ID, FDCAN_FccPack2_t.FDCAN_ID, FDCAN_FccPack3_t.FDCAN_ID, FDCAN_FetPack_t.FDCAN_ID, FDCAN_RelPackMtr_t.FDCAN_ID, FDCAN_RelPackCap_t.FDCAN_ID, FDCAN_RelPackFc_t.FDCAN_ID, ECOCAN_H2Pack1_t.FDCAN_ID, ECOCAN_H2Pack2_t.FDCAN_ID, FDCAN_BOOSTPack1_t.FDCAN_ID, FDCAN_BOOSTPack2_t.FDCAN_ID, FDCAN_BOOSTPack3_t.FDCAN_ID, h1, h2, hd]⟩)))
    · by_cases h3 : fid = 0x021
      · rcases hd : FDCAN_FccPack2_t.decode fdata with _ | ⟨⟨v, rr⟩⟩
        · exact Or.inl (by simp [decode_can_frame, decode_can_data, FDCAN_RELSTATE_ID, FDCAN_FccPack1_t.FDCAN_ID, FDCAN_FccPack2_t.FDCAN_ID, FDCAN_FccPack3_t.FDCAN_ID, FDCAN_FetPack_t.FDCAN_ID, FDCAN_RelPackMtr_t.FDCAN_ID, FDCAN_RelPackCap_t.FDCAN_ID, FDCAN_RelPackFc_t.FDCAN_ID, ECOCAN_H2Pack1_t.FDCAN_ID, ECOCAN_H2Pack2_t.FDCAN_ID, FDCAN_BOOSTPack1_t.FDCAN_ID, FDCAN_BOOSTPack2_t.FDCAN_ID, FDCAN_BOOSTPack3_t.FDCAN_ID, h1, h2, h3, hd])
        · exact Or.inr (Or.inr (Or.inr (Or.inl (⟨h3, v, by simp [decode_can_frame, decode_can_data, FDCAN_RELSTATE_ID, FDCAN_FccPack1_t.FDCAN_ID, FDCAN_FccPack2_t.FDCAN_ID, FDCAN_FccPack3_t.FDCAN_ID, FDCAN_FetPack_t.FDCAN_ID, FDCAN_RelPackMtr_t.FDCAN_ID, FDCAN_RelPackCap_t.FDCAN_ID, FDCAN_RelPackFc_t.FDCAN_ID, ECOCAN_H2Pack1_t.FDCAN_ID, ECOCAN_H2Pack2_t.FDCAN_ID, FDCAN_BOOSTPack1_t.FDCAN_ID, FDCAN_BOOSTPack2_t.FDCAN_ID, FDCAN_BOOSTPack3_t.FDCAN_ID, h1, h2, h3, hd]⟩))))
      · by_cases h4 : fid = 0x022
        · rcases hd : FDCAN_FccPack3_t.decode fdata with _ | ⟨⟨v, rr⟩⟩
          · exact Or.inl (by simp [decode_can_frame, decode_can_data, FDCAN_RELSTATE_ID, FDCAN_FccPack1_t.FDCAN_ID, FDCAN_FccPack2_t.FDCAN_ID, FDCAN_FccPack3_t.FDCAN_ID, FDCAN_FetPack_t.FDCAN_ID, FDCAN_RelPackMtr_t.FDCAN_ID, FDCAN_RelPackCap_t.FDCAN_ID, FDCAN_RelPackFc_t.FDCAN_ID, ECOCAN_H2Pack1_t.FDCAN_ID, ECOCAN_H2Pack2_t.FDCAN_ID, FDCAN_BOOSTPack1_t.FDCAN_ID, FDCAN_BOOSTPack2_t.FDCAN_ID, FDCAN_BOOSTPack3_t.FDCAN_ID, h1, h2, h3, h4, hd])
          · exact Or.inr (Or.inr (Or.inr (Or.inr (Or.inl (⟨h4, v, by simp [decode_can_frame, decode_can_data, FDCAN_RELSTATE_ID, FDCAN_FccPack1_t.FDCAN_ID, FDCAN_FccPack2_t.FDCAN_ID, FDCAN_FccPack3_t.FDCAN_ID, FDCAN_FetPack_t.FDCAN_ID, FDCAN_RelPackMtr_t.FDCAN_ID, FDCAN_RelPackCap_t.FDCAN_ID, FDCAN_RelPackFc_t.FDCAN_ID, ECOCAN_H2Pack1_t.FDCAN_ID, ECOCAN_H2Pack2_t.FDCAN_ID, FDCAN_BOOSTPack1_t.FDCAN_ID, FDCAN_BOOSTPack2_t.FDCAN_ID, FDCAN_BOOSTPack3_t.FDCAN_ID, h1, h2, h3, h4, hd]⟩)))))
        · by_cases h5 : fid = 0x010
          · rcases hd : FDCAN_FetPack_t.decode fdata with _ | ⟨⟨v, rr⟩⟩
            · exact Or.inl (by simp [decode_can_frame, decode_can_data, FDCAN_RELSTATE_ID, FDCAN_FccPack1_t.FDCAN_ID, FDCAN_FccPack2_t.FDCAN_ID, FDCAN_FccPack3_t.FDCAN_ID, FDCAN_FetPack_t.FDCAN_ID, FDCAN_RelPackMtr_t.FDCAN_ID, FDCAN_RelPackCap_t.FDCAN_ID, FDCAN_RelPackFc_t.FDCAN_ID, ECOCAN_H2Pack1_t.FDCAN_ID, ECOCAN_H2Pack2_t.FDCAN_ID, FDCAN_BOOSTPack1_t.FDCAN_ID, FDCAN_BOOSTPack2_t.FDCAN_ID, FDCAN_BOOSTPack3_t.FDCAN_ID, h1, h2, h3, h4, h5, hd])
            · exact Or.inr (Or.inr (Or.inr (Or.inr (Or.inr (Or.inl (⟨h5, v, by simp [decode_can_frame, decode_can_data, FDCAN_RELSTATE_ID, FDCAN_FccPack1_t.FDCAN_ID, FDCAN_FccPack2_t.FDCAN_ID, FDCAN_FccPack3_t.FDCAN_ID, FDCAN_FetPack_t.FDCAN_ID, FDCAN_RelPackMtr_t.FDCAN_ID, FDCAN_RelPackCap_t.FDCAN_ID, FDCAN_RelPackFc_t.FDCAN_ID, ECOCAN_H2Pack1_t.FDCAN_ID, ECOCAN_H2Pack2_t.FDCAN_ID, FDCAN_BOOSTPack1_t.FDCAN_ID, FDCAN_BOOSTPack2_t.FDCAN_ID, FDCAN_BOOSTPack3_t.FDCAN_ID, h1, h2, h3, h4, h5, hd]⟩))))))
          · by_cases h6 : fid = 0x015
            · rcases hd : FDCAN_RelPackMtr_t.decode fdata with _ | ⟨⟨v, rr⟩⟩
              · exact Or.inl (by simp [decode_can_frame, decode_can_data, FDCAN_RELSTATE_ID, FDCAN_FccPack1_t.FDCAN_ID, FDCAN_FccPack2_t.FDCAN_ID, FDCAN_FccPack3_t.FDCAN_ID, FDCAN_FetPack_t.FDCAN_ID, FDCAN_RelPackMtr_t.FDCAN_ID, FDCAN_RelPackCap_t.FDCAN_ID, FDCAN_RelPackFc_t.FDCAN_ID, ECOCAN_H2Pack1_t.FDCAN_ID, ECOCAN_H2Pack2_t.FDCAN_ID, FDCAN_BOOSTPack1_t.FDCAN_ID, FDCAN_BOOSTPack2_t.FDCAN_ID, FDCAN_BOOSTPack3_t.FDCAN_ID, h1, h2, h3, h4, h5, h6, hd])
              · exact Or.inr (Or.inr (Or.inr (Or.inr (Or.inr (Or.inr (Or.inl (⟨h6, v, by simp [decode_can_frame, decode_can_data, FDCAN_RELSTATE_ID, FDCAN_FccPack1_t.FDCAN_ID, FDCAN_FccPack2_t.FDCAN_ID, FDCAN_FccPack3_t.FDCAN_ID, FDCAN_FetPack_t.FDCAN_ID, FDCAN_RelPackMtr_t.FDCAN_ID, FDCAN_RelPackCap_t.FDCAN_ID, FDCAN_RelPackFc_t.FDCAN_ID, ECOCAN_H2Pack1_t.FDCAN_ID, ECOCAN_H2Pack2_t.FDCAN_ID, FDCAN_BOOSTPack1_t.FDCAN_ID, FDCAN_BOOSTPack2_t.FDCAN_ID, FDCAN_BOOSTPack3_t.FDCAN_ID, h1, h2, h3, h4, h5, h6, hd]⟩)))))))
            · by_cases h7 : fid = 0x016
              · rcases hd : FDCAN_RelPackCap_t.decode fdata with _ | ⟨⟨v, rr⟩⟩
                · exact Or.inl (by simp [decode_can_frame, decode_can_data, FDCAN_RELSTATE_ID, FDCAN_FccPack1_t.FDCAN_ID, FDCAN_FccPack2_t.FDCAN_ID, FDCAN_FccPack3_t.FDCAN_ID, FDCAN_FetPack_t.FDCAN_ID, FDCAN_RelPackMtr_t.FDCAN_ID, FDCAN_RelPackCap_t.FDCAN_ID, FDCAN_RelPackFc_t.FDCAN_ID, ECOCAN_H2Pack1_t.FDCAN_ID, ECOCAN_H2Pack2_t.FDCAN_ID, FDCAN_BOOSTPack1_t.FDCAN_ID, FDCAN_BOOSTPack2_t.FDCAN_ID, FDCAN_BOOSTPack3_t.FDCAN_ID, h1, h2, h3, h4, h5, h6, h7, hd])
                · exact Or.inr (Or.inr (Or.inr (Or.inr (Or.inr (Or.inr (Or.inr (Or.inl (⟨h7, v, by simp [decode_can_frame, decode_can_data, FDCAN_RELSTATE_ID, FDCAN_FccPack1_t.FDCAN_ID, FDCAN_FccPack2_t.FDCAN_ID, FDCAN_FccPack3_t.FDCAN_ID, FDCAN_FetPack_t.FDCAN_ID, FDCAN_RelPackMtr_t.FDCAN_ID, FDCAN_RelPackCap_t.FDCAN_ID, FDCAN_RelPackFc_t.FDCAN_ID, ECOCAN_H2Pack1_t.FDCAN_ID, ECOCAN_H2Pack2_t.FDCAN_ID, FDCAN_BOOSTPack1_t.FDCAN_ID, FDCAN_BOOSTPack2_t.FDCAN_ID, FDCAN_BOOSTPack3_t.FDCAN_ID, h1, h2, h3, h4, h5, h6, h7, hd]⟩))))))))
              · by_cases h8 : fid = 0x017
                · rcases hd : FDCAN_RelPackFc_t.decode fdata with _ | ⟨⟨v, rr⟩⟩
                  · exact Or.inl (by simp [decode_can_frame, decode_can_data, FDCAN_RELSTATE_ID, FDCAN_FccPack1_t.FDCAN_ID, FDCAN_FccPack2_t.FDCAN_ID, FDCAN_FccPack3_t.FDCAN_ID, FDCAN_FetPack_t.FDCAN_ID, FDCAN_RelPackMtr_t.FDCAN_ID, FDCAN_RelPackCap_t.FDCAN_ID, FDCAN_RelPackFc_t.FDCAN_ID, ECOCAN_H2Pack1_t.FDCAN_ID, ECOCAN_H2Pack2_t.FDCAN_ID, FDCAN_BOOSTPack1_t.FDCAN_ID, FDCAN_BOOSTPack2_t.FDCAN_ID, FDCAN_BOOSTPack3_t.FDCAN_ID, h1, h2, h3, h4, h5, h6, h7, h8, hd])
                  · exact Or.inr (Or.inr (Or.inr (Or.inr (Or.inr (Or.inr (Or.inr (Or.inr (Or.inl (⟨h8, v, by simp [decode_can_frame, decode_can_data, FDCAN_RELSTATE_ID, FDCAN_FccPack1_t.FDCAN_ID, FDCAN_FccPack2_t.FDCAN_ID, FDCAN_FccPack3_t.FDCAN_ID, FDCAN_FetPack_t.FDCAN_ID, FDCAN_RelPackMtr_t.FDCAN_ID, FDCAN_RelPackCap_t.FDCAN_ID, FDCAN_RelPackFc_t.FDCAN_ID, ECOCAN_H2Pack1_t.FDCAN_ID, ECOCAN_H2Pack2_t.FDCAN_ID, FDCAN_BOOSTPack1_t.FDCAN_ID, FDCAN_BOOSTPack2_t.FDCAN_ID, FDCAN_BOOSTPack3_t.FDCAN_ID, h1, h2, h3, h4, h5, h6, h7, h8, hd]⟩)))))))))
                · by_cases h9 : fid = 0x030
                  · rcases hd : ECOCAN_H2Pack1_t.decode fdata with _ | ⟨⟨v, rr⟩⟩
                    · exact Or.inl (by simp [decode_can_frame, decode_can_data, FDCAN_RELSTATE_ID, FDCAN_FccPack1_t.FDCAN_ID, FDCAN_FccPack2_t.FDCAN_ID, FDCAN_FccPack3_t.FDCAN_ID, FDCAN_FetPack_t.FDCAN_ID, FDCAN_RelPackMtr_t.FDCAN_ID, FDCAN_RelPackCap_t.FDCAN_ID, FDCAN_RelPackFc_t.FDCAN_ID, ECOCAN_H2Pack1_t.FDCAN_ID, ECOCAN_H2Pack2_t.FDCAN_ID, FDCAN_BOOSTPack1_t.FDCAN_ID, FDCAN_BOOSTPack2_t.FDCAN_ID, FDCAN_BOOSTPack3_t.FDCAN_ID, h1, h2, h3, h4, h5, h6, h7, h8, h9, hd])
                    · exact Or.inr (Or.inr (Or.inr (Or.inr (Or.inr (Or.inr (Or.inr (Or.inr (Or.inr (Or.inl (⟨h9, v, by simp [decode_can_frame, decode_can_data, FDCAN_RELSTATE_ID, FDCAN_FccPack1_t.FDCAN_ID, FDCAN_FccPack2_t.FDCAN_ID, FDCAN_FccPack3_t.FDCAN_ID, FDCAN_FetPack_t.FDCAN_ID, FDCAN_RelPackMtr_t.FDCAN_ID, FDCAN_RelPackCap_t.FDCAN_ID, FDCAN_RelPackFc_t.FDCAN_ID, ECOCAN_H2Pack1_t.FDCAN_ID, ECOCAN_H2Pack2_t.FDCAN_ID, FDCAN_BOOSTPack1_t.FDCAN_ID, FDCAN_BOOSTPack2_t.FDCAN_ID, FDCAN_BOOSTPack3_t.FDCAN_ID, h1, h2, h3, h4, h5, h6, h7, h8, h9, hd]⟩))))))))))
                  · by_cases h10 : fid = 0x031
                    · rcases hd : ECOCAN_H2Pack2_t.decode fdata with _ | ⟨⟨v, rr⟩⟩
                      · exact Or.inl (by simp [decode_can_frame, decode_can_data, FDCAN_RELSTATE_ID, FDCAN_FccPack1_t.FDCAN_ID, FDCAN_FccPack2_t.FDCAN_ID, FDCAN_FccPack3_t.FDCAN_ID, FDCAN_FetPack_t.FDCAN_ID, FDCAN_RelPackMtr_t.FDCAN_ID, FDCAN_RelPackCap_t.FDCAN_ID, FDCAN_RelPackFc_t.FDCAN_ID, ECOCAN_H2Pack1_t.FDCAN_ID, ECOCAN_H2Pack2_t.FDCAN_ID, FDCAN_BOOSTPack1_t.FDCAN_ID, FDCAN_BOOSTPack2_t.FDCAN_ID, FDCAN_BOOSTPack3_t.FDCAN_ID, h1, h2, h3, h4, h5, h6, h7, h8, h9, h10, hd])
                      · exact Or.inr (Or.inr (Or.inr (Or.inr (Or.inr (Or.inr (Or.inr (Or.inr (Or.inr (Or.inr (Or.inl (⟨h10, v, by simp [decode_can_frame, decode_can_data, FDCAN_RELSTATE_ID, FDCAN_FccPack1_t.FDCAN_ID, FDCAN_FccPack2_t.FDCAN_ID, FDCAN_FccPack3_t.FDCAN_ID, FDCAN_FetPack_t.FDCAN_ID, FDCAN_RelPackMtr_t.FDCAN_ID, FDCAN_RelPackCap_t.FDCAN_ID, FDCAN_RelPackFc_t.FDCAN_ID, ECOCAN_H2Pack1_t.FDCAN_ID, ECOCAN_H2Pack2_t.FDCAN_ID, FDCAN_BOOSTPack1_t.FDCAN_ID, FDCAN_BOOSTPack2_t.FDCAN_ID, FDCAN_BOOSTPack3_t.FDCAN_ID, h1, h2, h3, h4, h5, h6, h7, h8, h9, h10, hd]⟩)))))))))))
                    · by_cases h11 : fid = 0x040
                      · rcases hd : FDCAN_BOOSTPack1_t.decode fdata with _ | ⟨⟨v, rr⟩⟩
                        · exact Or.inl (by simp [decode_can_frame, decode_can_data, FDCAN_RELSTATE_ID, FDCAN_FccPack1_t.FDCAN_ID, FDCAN_FccPack2_t.FDCAN_ID, FDCAN_FccPack3_t.FDCAN_ID, FDCAN_FetPack_t.FDCAN_ID, FDCAN_RelPackMtr_t.FDCAN_ID, FDCAN_RelPackCap_t.FDCAN_ID, FDCAN_RelPackFc_t.FDCAN_ID, ECOCAN_H2Pack1_t.FDCAN_ID, ECOCAN_H2Pack2_t.FDCAN_ID, FDCAN_BOOSTPack1_t.FDCAN_ID, FDCAN_BOOSTPack2_t.FDCAN_ID, FDCAN_BOOSTPack3_t.FDCAN_ID, h1, h2, h3, h4, h5, h6, h7, h8, h9, h10, h11, hd])
                        · exact Or.inr (Or.inr (Or.inr (Or.inr (Or.inr (Or.inr (Or.inr (Or.inr (Or.inr (Or.inr (Or.inr (Or.inl (⟨h11, v, by simp [decode_can_frame, decode_can_data, FDCAN_RELSTATE_ID, FDCAN_FccPack1_t.FDCAN_ID, FDCAN_FccPack2_t.FDCAN_ID, FDCAN_FccPack3_t.FDCAN_ID, FDCAN_FetPack_t.FDCAN_ID, FDCAN_RelPackMtr_t.FDCAN_ID, FDCAN_RelPackCap_t.FDCAN_ID, FDCAN_RelPackFc_t.FDCAN_ID, ECOCAN_H2Pack1_t.FDCAN_ID, ECOCAN_H2Pack2_t.FDCAN_ID, FDCAN_BOOSTPack1_t.FDCAN_ID, FDCAN_BOOSTPack2_t.FDCAN_ID, FDCAN_BOOSTPack3_t.FDCAN_ID, h1, h2, h3, h4, h5, h6, h7, h8, h9, h10, h11, hd]⟩))))))))))))
                      · by_cases h12 : fid = 0x041
                        · rcases hd : FDCAN_BOOSTPack2_t.decode fdata with _ | ⟨⟨v, rr⟩⟩
                          · exact Or.inl (by simp [decode_can_frame, decode_can_data, FDCAN_RELSTATE_ID, FDCAN_FccPack1_t.FDCAN_ID, FDCAN_FccPack2_t.FDCAN_ID, FDCAN_FccPack3_t.FDCAN_ID, FDCAN_FetPack_t.FDCAN_ID, FDCAN_RelPackMtr_t.FDCAN_ID, FDCAN_RelPackCap_t.FDCAN_ID, FDCAN_RelPackFc_t.FDCAN_ID, ECOCAN_H2Pack1_t.FDCAN_ID, ECOCAN_H2Pack2_t.FDCAN_ID, FDCAN_BOOSTPack1_t.FDCAN_ID, FDCAN_BOOSTPack2_t.FDCAN_ID, FDCAN_BOOSTPack3_t.FDCAN_ID, h1, h2, h3, h4, h5, h6, h7, h8, h9, h10, h11, h12, hd])
                          · exact Or.inr (Or.inr (Or.inr (Or.inr (Or.inr (Or.inr (Or.inr (Or.inr (Or.inr (Or.inr (Or.inr (Or.inr (Or.inl (⟨h12, v, by simp [decode_can_frame, decode_can_data, FDCAN_RELSTATE_ID, FDCAN_FccPack1_t.FDCAN_ID, FDCAN_FccPack2_t.FDCAN_ID, FDCAN_FccPack3_t.FDCAN_ID, FDCAN_FetPack_t.FDCAN_ID, FDCAN_RelPackMtr_t.FDCAN_ID, FDCAN_RelPackCap_t.FDCAN_ID, FDCAN_RelPackFc_t.FDCAN_ID, ECOCAN_H2Pack1_t.FDCAN_ID, ECOCAN_H2Pack2_t.FDCAN_ID, FDCAN_BOOSTPack1_t.FDCAN_ID, FDCAN_BOOSTPack2_t.FDCAN_ID, FDCAN_BOOSTPack3_t.FDCAN_ID, h1, h2, h3, h4, h5, h6, h7, h8, h9, h10, h11, h12, hd]⟩)))))))))))))
                        · by_cases h13 : fid = 0x042
                          · rcases hd : FDCAN_BOOSTPack3_t.decode fdata with _ | ⟨⟨v, rr⟩⟩
                            · exact Or.inl (by simp [decode_can_frame, decode_can_data, FDCAN_RELSTATE_ID, FDCAN_FccPack1_t.FDCAN_ID, FDCAN_FccPack2_t.FDCAN_ID, FDCAN_FccPack3_t.FDCAN_ID, FDCAN_FetPack_t.FDCAN_ID, FDCAN_RelPackMtr_t.FDCAN_ID, FDCAN_RelPackCap_t.FDCAN_ID, FDCAN_RelPackFc_t.FDCAN_ID, ECOCAN_H2Pack1_t.FDCAN_ID, ECOCAN_H2Pack2_t.FDCAN_ID, FDCAN_BOOSTPack1_t.FDCAN_ID, FDCAN_BOOSTPack2_t.FDCAN_ID, FDCAN_BOOSTPack3_t.FDCAN_ID, h1, h2, h3, h4, h5, h6, h7, h8, h9, h10, h11, h12, h13, hd])
                            · exact Or.inr (Or.inr (Or.inr (Or.inr (Or.inr (Or.inr (Or.inr (Or.inr (Or.inr (Or.inr (Or.inr (Or.inr (Or.inr (⟨h13, v, by simp [decode_can_frame, decode_can_data, FDCAN_RELSTATE_ID, FDCAN_FccPack1_t.FDCAN_ID, FDCAN_FccPack2_t.FDCAN_ID, FDCAN_FccPack3_t.FDCAN_ID, FDCAN_FetPack_t.FDCAN_ID, FDCAN_RelPackMtr_t.FDCAN_ID, FDCAN_RelPackCap_t.FDCAN_ID, FDCAN_RelPackFc_t.FDCAN_ID, ECOCAN_H2Pack1_t.FDCAN_ID, ECOCAN_H2Pack2_t.FDCAN_ID, FDCAN_BOOSTPack1_t.FDCAN_ID, FDCAN_BOOSTPack2_t.FDCAN_ID, FDCAN_BOOSTPack3_t.FDCAN_ID, h1, h2, h3, h4, h5, h6, h7, h8, h9, h10, h11, h12, h13, hd]⟩)))))))))))))
                          · exact Or.inl (by simp [decode_can_frame, FDCAN_RELSTATE_ID, FDCAN_FccPack1_t.FDCAN_ID, FDCAN_FccPack2_t.FDCAN_ID, FDCAN_FccPack3_t.FDCAN_ID, FDCAN_FetPack_t.FDCAN_ID, FDCAN_RelPackMtr_t.FDCAN_ID, FDCAN_RelPackCap_t.FDCAN_ID, FDCAN_RelPackFc_t.FDCAN_ID, ECOCAN_H2Pack1_t.FDCAN_ID, ECOCAN_H2Pack2_t.FDCAN_ID, FDCAN_BOOSTPack1_t.FDCAN_ID, FDCAN_BOOSTPack2_t.FDCAN_ID, FDCAN_BOOSTPack3_t.FDCAN_ID, h1, h2, h3, h4, h5, h6, h7, h8, h9, h10, h11, h12, h13])

/-- Claim C10: routing one inbound frame modifies at most the slot whose
descriptor identifier equals the frame identifier; every other slot is
unchanged, whatever the outcome (updated, rejected, unmatched, or the
empty-payload fault of the 0x018 arm). -/
theorem C10_route_touches_one_slot (f : Frame) (st : CanState) :
    (f.id ≠ FDCAN_RELSTATE_ID →
      ((decode_can_frame f st).2).relay_state = st.relay_state)
    ∧ (f.id ≠ FDCAN_FccPack1_t.FDCAN_ID →
      ((decode_can_frame f st).2).fcc_pack1_data = st.fcc_pack1_data)
    ∧ (f.id ≠ FDCAN_FccPack2_t.FDCAN_ID →
      ((decode_can_frame f st).2).fcc_pack2_data = st.fcc_pack2_data)
    ∧ (f.id ≠ FDCAN_FccPack3_t.FDCAN_ID →
      ((decode_can_frame f st).2).fcc_pack3_data = st.fcc_pack3_data)
    ∧ (f.id ≠ FDCAN_FetPack_t.FDCAN_ID →
      ((decode_can_frame f st).2).fet_data = st.fet_data)
    ∧ (f.id ≠ FDCAN_RelPackMtr_t.FDCAN_ID →
      ((decode_can_frame f st).2).relay_motor_pack = st.relay_motor_pack)
    ∧ (f.id ≠ FDCAN_RelPackCap_t.FDCAN_ID →
      ((decode_can_frame f st).2).rel_cap_pack = st.rel_cap_pack)
    ∧ (f.id ≠ FDCAN_RelPackFc_t.FDCAN_ID →
      ((decode_can_frame f st).2).rel_fc_pack = st.rel_fc_pack)
    ∧ (f.id ≠ ECOCAN_H2Pack1_t.FDCAN_ID →
      ((decode_can_frame f st).2).h2_pack1_data = st.h2_pack1_data)
    ∧ (f.id ≠ ECOCAN_H2Pack2_t.FDCAN_ID →
      ((decode_can_frame f st).2).h2_pack2_data = st.h2_pack2_data)
    ∧ (f.id ≠ FDCAN_BOOSTPack1_t.FDCAN_ID →
      ((decode_can_frame f st).2).boost_pack1_data = st.boost_pack1_data)
    ∧ (f.id ≠ FDCAN_BOOSTPack2_t.FDCAN_ID →
      ((decode_can_frame f st).2).boost_pack2_data = st.boost_pack2_data)
    ∧ (f.id ≠ FDCAN_BOOSTPack3_t.FDCAN_ID →
      ((decode_can_frame f st).2).boost_pack3_data = st.boost_pack3_data) := by
  obtain ⟨fid, fdata⟩ := f
  dsimp only
  rcases decode_can_frame_state_cases fid fdata st with
      h0 | ⟨hid, r, hst⟩ | ⟨hid, v, hst⟩ | ⟨hid, v, hst⟩ | ⟨hid, v, hst⟩ | ⟨hid, v, hst⟩ |
        ⟨hid, v, hst⟩ | ⟨hid, v, hst⟩ | ⟨hid, v, hst⟩ | ⟨hid, v, hst⟩ | ⟨hid, v, hst⟩ |
        ⟨hid, v, hst⟩ | ⟨hid, v, hst⟩ | ⟨hid, v, hst⟩
  · rw [h0]
    simp
  all_goals rw [hst]
  all_goals simp [hid, FDCAN_RELSTATE_ID, FDCAN_FccPack1_t.FDCAN_ID, FDCAN_FccPack2_t.FDCAN_ID, FDCAN_FccPack3_t.FDCAN_ID, FDCAN_FetPack_t.FDCAN_ID, FDCAN_RelPackMtr_t.FDCAN_ID, FDCAN_RelPackCap_t.FDCAN_ID, FDCAN_RelPackFc_t.FDCAN_ID, ECOCAN_H2Pack1_t.FDCAN_ID, ECOCAN_H2Pack2_t.FDCAN_ID, FDCAN_BOOSTPack1_t.FDCAN_ID, FDCAN_BOOSTPack2_t.FDCAN_ID, FDCAN_BOOSTPack3_t.FDCAN_ID]

theorem C10_route_touches_one_slot_witness :
    ((decode_can_frame ⟨0x015, [0, 0, 0, 5, 0, 0, 0, 10]⟩ initialCanState).2).relay_state =
      initialCanState.relay_state :=
  (C10_route_touches_one_slot ⟨0x015, [0, 0, 0, 5, 0, 0, 0, 10]⟩ initialCanState).1
    (by decide)

/-- Claim C5: for every catalog package type, decoding the bytes produced
by encoding a record (both through the big-endian fixed-width codec
configuration) returns the original record with no bytes left over, for all
record values representable in the field layout. -/
theorem C5_roundtrip :
    (∀ r : FDCAN_FetPack_t, r.Representable → FDCAN_FetPack_t.decode r.encode = some (r, []))
    ∧ (∀ r : ECOCAN_RelPackChrg_t, r.Representable → ECOCAN_RelPackChrg_t.decode r.encode = some (r, []))
    ∧ (∀ r : FDCAN_RelPackNrg_t, r.Representable → FDCAN_RelPackNrg_t.decode r.encode = some (r, []))
    ∧ (∀ r : FDCAN_RelPackMtr_t, r.Representable → FDCAN_RelPackMtr_t.decode r.encode = some (r, []))
    ∧ (∀ r : FDCAN_RelPackCap_t, r.Representable → FDCAN_RelPackCap_t.decode r.encode = some (r, []))
    ∧ (∀ r : FDCAN_RelPackFc_t, r.Representable → FDCAN_RelPackFc_t.decode r.encode = some (r, []))
    ∧ (∀ r : FDCAN_FccPack1_t, r.Representable → FDCAN_FccPack1_t.decode r.encode = some (r, []))
    ∧ (∀ r : FDCAN_FccPack2_t, r.Representable → FDCAN_FccPack2_t.decode r.encode = some (r, []))
    ∧ (∀ r : FDCAN_FccPack3_t, r.Representable → FDCAN_FccPack3_t.decode r.encode = some (r, []))
    ∧ (∀ r : ECOCAN_H2Pack1_t, r.Representable → ECOCAN_H2Pack1_t.decode r.encode = some (r, []))
    ∧ (∀ r : ECOCAN_H2Pack2_t, r.Representable → ECOCAN_H2Pack2_t.decode r.encode = some (r, []))
    ∧ (∀ r : ECOCAN_H2_ARM_ALARM_t, r.Representable → ECOCAN_H2_ARM_ALARM_t.decode r.encode = some (r, []))
    ∧ (∀ r : FDCAN_BOOSTPack1_t, r.Representable → FDCAN_BOOSTPack1_t.decode r.encode = some (r, []))
    ∧ (∀ r : FDCAN_BOOSTPack2_t, r.Representable → FDCAN_BOOSTPack2_t.decode r.encode = some (r, []))
    ∧ (∀ r : FDCAN_BOOSTPack3_t, r.Representable → FDCAN_BOOSTPack3_t.decode r.encode = some (r, []))
    ∧ (∀ r : FDCAN_BATTPack2_t, r.Representable → FDCAN_BATTPack2_t.decode r.encode = some (r, []))
    := by
  refine ⟨?_, ?_, ?_, ?_, ?_, ?_, ?_, ?_, ?_, ?_, ?_, ?_, ?_, ?_, ?_, ?_⟩
  · intro r h
    obtain ⟨h0, h1, h2, h3, h4, h5⟩ := h
    simp [FDCAN_FetPack_t.encode, FDCAN_FetPack_t.decode, Option.bind, read32_encBE32 _ h0, read32_encBE32 _ h1, read32_encBE32 _ h2, read32_encBE32 _ h3, read32_encBE32 _ h4, read32_encBE32_nil _ h5]
  · intro r h
    obtain ⟨⟨h0a, h0b⟩, ⟨h1a, h1b⟩⟩ := h
    simp [ECOCAN_RelPackChrg_t.encode, ECOCAN_RelPackChrg_t.decode, Option.bind, readI32_encI32 _ h0a h0b, readI32_encI32_nil _ h1a h1b]
  · intro r h
    obtain ⟨⟨h0a, h0b⟩, ⟨h1a, h1b⟩⟩ := h
    simp [FDCAN_RelPackNrg_t.encode, FDCAN_RelPackNrg_t.decode, Option.bind, readI32_encI32 _ h0a h0b, readI32_encI32_nil _ h1a h1b]
  · intro r h
    obtain ⟨h0, h1⟩ := h
    simp [FDCAN_RelPackMtr_t.encode, FDCAN_RelPackMtr_t.decode, Option.bind, read32_encBE32 _ h0, read32_encBE32_nil _ h1]
  · intro r h
    obtain ⟨h0, ⟨h1a, h1b⟩⟩ := h
    simp [FDCAN_RelPackCap_t.encode, FDCAN_RelPackCap_t.decode, Option.bind, read32_encBE32 _ h0, readI32_encI32_nil _ h1a h1b]
  · intro r h
    obtain ⟨h0, h1⟩ := h
    simp [FDCAN_RelPackFc_t.encode, FDCAN_RelPackFc_t.decode, Option.bind, read32_encBE32 _ h0, read32_encBE32_nil _ h1]
  · intro r h
    obtain ⟨⟨h0a, h0b⟩, h1⟩ := h
    simp [FDCAN_FccPack1_t.encode, FDCAN_FccPack1_t.decode, Option.bind, readI32_encI32 _ h0a h0b, read32_encBE32_nil _ h1]
  · intro r h
    obtain ⟨h0, h1⟩ := h
    simp [FDCAN_FccPack2_t.encode, FDCAN_FccPack2_t.decode, Option.bind, read32_encBE32 _ h0, read32_encBE32_nil _ h1]
  · intro r h
    obtain ⟨h0, h1⟩ := h
    simp [FDCAN_FccPack3_t.encode, FDCAN_FccPack3_t.decode, Option.bind, read32_encBE32 _ h0, read32_encBE32_nil _ h1]
  · intro r h
    obtain ⟨h0, h1, h2, h3⟩ := h
    simp [ECOCAN_H2Pack1_t.encode, ECOCAN_H2Pack1_t.decode, Option.bind, read16_encBE16 _ h0, read16_encBE16 _ h1, read16_encBE16 _ h2, read16_encBE16_nil _ h3]
  · intro r h
    obtain ⟨h0, h1, h2, h3⟩ := h
    simp [ECOCAN_H2Pack2_t.encode, ECOCAN_H2Pack2_t.decode, Option.bind, read16_encBE16 _ h0, read16_encBE16 _ h1, read16_encBE16 _ h2, read16_encBE16_nil _ h3]
  · intro r h
    simp [ECOCAN_H2_ARM_ALARM_t.encode, ECOCAN_H2_ARM_ALARM_t.decode, Option.bind,
      read8_encBE8_nil _ h]
  · intro r h
    obtain ⟨h0, h1⟩ := h
    simp [FDCAN_BOOSTPack1_t.encode, FDCAN_BOOSTPack1_t.decode, Option.bind, read32_encBE32 _ h0, read32_encBE32_nil _ h1]
  · intro r h
    obtain ⟨h0, h1⟩ := h
    simp [FDCAN_BOOSTPack2_t.encode, FDCAN_BOOSTPack2_t.decode, Option.bind, read32_encBE32 _ h0, read32_encBE32_nil _ h1]
  · intro r h
    obtain ⟨h0, h1⟩ := h
    simp [FDCAN_BOOSTPack3_t.encode, FDCAN_BOOSTPack3_t.decode, Option.bind, read32_encBE32 _ h0, read32_encBE32_nil _ h1]
  · intro r h
    obtain ⟨h0, h1⟩ := h
    simp [FDCAN_BATTPack2_t.encode, FDCAN_BATTPack2_t.decode, Option.bind, read16_encBE16 _ h0, read16_encBE16_nil _ h1]

theorem C5_roundtrip_witness :
    FDCAN_FetPack_t.decode (FDCAN_FetPack_t.encode ⟨1, 2, 3, 4, 5, 6⟩) = some ((⟨1, 2, 3, 4, 5, 6⟩ : FDCAN_FetPack_t), [])
    ∧ ECOCAN_RelPackChrg_t.decode (ECOCAN_RelPackChrg_t.encode ⟨-1, -2⟩) = some ((⟨-1, -2⟩ : ECOCAN_RelPackChrg_t), [])
    ∧ FDCAN_RelPackNrg_t.decode (FDCAN_RelPackNrg_t.encode ⟨-1, -2⟩) = some ((⟨-1, -2⟩ : FDCAN_RelPackNrg_t), [])
    ∧ FDCAN_RelPackMtr_t.decode (FDCAN_RelPackMtr_t.encode ⟨1, 2⟩) = some ((⟨1, 2⟩ : FDCAN_RelPackMtr_t), [])
    ∧ FDCAN_RelPackCap_t.decode (FDCAN_RelPackCap_t.encode ⟨1, -2⟩) = some ((⟨1, -2⟩ : FDCAN_RelPackCap_t), [])
    ∧ FDCAN_RelPackFc_t.decode (FDCAN_RelPackFc_t.encode ⟨1, 2⟩) = some ((⟨1, 2⟩ : FDCAN_RelPackFc_t), [])
    ∧ FDCAN_FccPack1_t.decode (FDCAN_FccPack1_t.encode ⟨-1, 2⟩) = some ((⟨-1, 2⟩ : FDCAN_FccPack1_t), [])
    ∧ FDCAN_FccPack2_t.decode (FDCAN_FccPack2_t.encode ⟨1, 2⟩) = some ((⟨1, 2⟩ : FDCAN_FccPack2_t), [])
    ∧ FDCAN_FccPack3_t.decode (FDCAN_FccPack3_t.encode ⟨1, 2⟩) = some ((⟨1, 2⟩ : FDCAN_FccPack3_t), [])
    ∧ ECOCAN_H2Pack1_t.decode (ECOCAN_H2Pack1_t.encode ⟨1, 2, 3, 4⟩) = some ((⟨1, 2, 3, 4⟩ : ECOCAN_H2Pack1_t), [])
    ∧ ECOCAN_H2Pack2_t.decode (ECOCAN_H2Pack2_t.encode ⟨1, 2, 3, 4⟩) = some ((⟨1, 2, 3, 4⟩ : ECOCAN_H2Pack2_t), [])
    ∧ ECOCAN_H2_ARM_ALARM_t.decode (ECOCAN_H2_ARM_ALARM_t.encode ⟨1⟩) = some ((⟨1⟩ : ECOCAN_H2_ARM_ALARM_t), [])
    ∧ FDCAN_BOOSTPack1_t.decode (FDCAN_BOOSTPack1_t.encode ⟨1, 2⟩) = some ((⟨1, 2⟩ : FDCAN_BOOSTPack1_t), [])
    ∧ FDCAN_BOOSTPack2_t.decode (FDCAN_BOOSTPack2_t.encode ⟨1, 2⟩) = some ((⟨1, 2⟩ : FDCAN_BOOSTPack2_t), [])
    ∧ FDCAN_BOOSTPack3_t.decode (FDCAN_BOOSTPack3_t.encode ⟨1, 2⟩) = some ((⟨1, 2⟩ : FDCAN_BOOSTPack3_t), [])
    ∧ FDCAN_BATTPack2_t.decode (FDCAN_BATTPack2_t.encode ⟨1, 2⟩) = some ((⟨1, 2⟩ : FDCAN_BATTPack2_t), []) :=
  ⟨C5_roundtrip.1 ⟨1, 2, 3, 4, 5, 6⟩ (by norm_num [FDCAN_FetPack_t.Representable]),
   C5_roundtrip.2.1 ⟨-1, -2⟩ (by norm_num [ECOCAN_RelPackChrg_t.Representable]),
   C5_roundtrip.2.2.1 ⟨-1, -2⟩ (by norm_num [FDCAN_RelPackNrg_t.Representable]),
   C5_roundtrip.2.2.2.1 ⟨1, 2⟩ (by norm_num [FDCAN_RelPackMtr_t.Representable]),
   C5_roundtrip.2.2.2.2.1 ⟨1, -2⟩ (by norm_num [FDCAN_RelPackCap_t.Representable]),
   C5_roundtrip.2.2.2.2.2.1 ⟨1, 2⟩ (by norm_num [FDCAN_RelPackFc_t.Representable]),
   C5_roundtrip.2.2.2.2.2.2.1 ⟨-1, 2⟩ (by norm_num [FDCAN_FccPack1_t.Representable]),
   C5_roundtrip.2.2.2.2.2.2.2.1 ⟨1, 2⟩ (by norm_num [FDCAN_FccPack2_t.Representable]),
   C5_roundtrip.2.2.2.2.2.2.2.2.1 ⟨1, 2⟩ (by norm_num [FDCAN_FccPack3_t.Representable]),
   C5_roundtrip.2.2.2.2.2.2.2.2.2.1 ⟨1, 2, 3, 4⟩ (by norm_num [ECOCAN_H2Pack1_t.Representable]),
   C5_roundtrip.2.2.2.2.2.2.2.2.2.2.1 ⟨1, 2, 3, 4⟩ (by norm_num [ECOCAN_H2Pack2_t.Representable]),
   C5_roundtrip.2.2.2.2.2.2.2.2.2.2.2.1 ⟨1⟩ (by norm_num [ECOCAN_H2_ARM_ALARM_t.Representable]),
   C5_roundtrip.2.2.2.2.2.2.2.2.2.2.2.2.1 ⟨1, 2⟩ (by norm_num [FDCAN_BOOSTPack1_t.Representable]),
   C5_roundtrip.2.2.2.2.2.2.2.2.2.2.2.2.2.1 ⟨1, 2⟩ (by norm_num [FDCAN_BOOSTPack2_t.Representable]),
   C5_roundtrip.2.2.2.2.2.2.2.2.2.2.2.2.2.2.1 ⟨1, 2⟩ (by norm_num [FDCAN_BOOSTPack3_t.Representable]),
   C5_roundtrip.2.2.2.2.2.2.2.2.2.2.2.2.2.2.2 ⟨1, 2⟩ (by norm_num [FDCAN_BATTPack2_t.Representable])⟩

/-- Claim C8: for every catalog package type, the encoder produces exactly
the declared FDCAN byte length; `encode_can_package` succeeds whenever the
output buffer capacity is at least that length, writing exactly that many
bytes, and fails with the buffer-too-small encode fault when the buffer is
shorter. -/
theorem C8_encode_exact_length :
    (∀ (r : FDCAN_FetPack_t) (cap : Nat),
      (FDCAN_FetPack_t.encode r).length = FDCAN_FetPack_t.FDCAN_BYTES
      ∧ (FDCAN_FetPack_t.FDCAN_BYTES ≤ cap →
          encode_can_package FDCAN_FetPack_t.encode r cap = .ok (FDCAN_FetPack_t.encode r, FDCAN_FetPack_t.FDCAN_BYTES))
      ∧ (cap < FDCAN_FetPack_t.FDCAN_BYTES →
          encode_can_package FDCAN_FetPack_t.encode r cap = .error .UnexpectedEnd))
    ∧ (∀ (r : ECOCAN_RelPackChrg_t) (cap : Nat),
      (ECOCAN_RelPackChrg_t.encode r).length = ECOCAN_RelPackChrg_t.FDCAN_BYTES
      ∧ (ECOCAN_RelPackChrg_t.FDCAN_BYTES ≤ cap →
          encode_can_package ECOCAN_RelPackChrg_t.encode r cap = .ok (ECOCAN_RelPackChrg_t.encode r, ECOCAN_RelPackChrg_t.FDCAN_BYTES))
      ∧ (cap < ECOCAN_RelPackChrg_t.FDCAN_BYTES →
          encode_can_package ECOCAN_RelPackChrg_t.encode r cap = .error .UnexpectedEnd))
    ∧ (∀ (r : FDCAN_RelPackNrg_t) (cap : Nat),
      (FDCAN_RelPackNrg_t.encode r).length = FDCAN_RelPackNrg_t.FDCAN_BYTES
      ∧ (FDCAN_RelPackNrg_t.FDCAN_BYTES ≤ cap →
          encode_can_package FDCAN_RelPackNrg_t.encode r cap = .ok (FDCAN_RelPackNrg_t.encode r, FDCAN_RelPackNrg_t.FDCAN_BYTES))
      ∧ (cap < FDCAN_RelPackNrg_t.FDCAN_BYTES →
          encode_can_package FDCAN_RelPackNrg_t.encode r cap = .error .UnexpectedEnd))
    ∧ (∀ (r : FDCAN_RelPackMtr_t) (cap : Nat),
      (FDCAN_RelPackMtr_t.encode r).length = FDCAN_RelPackMtr_t.FDCAN_BYTES
      ∧ (FDCAN_RelPackMtr_t.FDCAN_BYTES ≤ cap →
          encode_can_package FDCAN_RelPackMtr_t.encode r cap = .ok (FDCAN_RelPackMtr_t.encode r, FDCAN_RelPackMtr_t.FDCAN_BYTES))
      ∧ (cap < FDCAN_RelPackMtr_t.FDCAN_BYTES →
          encode_can_package FDCAN_RelPackMtr_t.encode r cap = .error .UnexpectedEnd))
    ∧ (∀ (r : FDCAN_RelPackCap_t) (cap : Nat),
      (FDCAN_RelPackCap_t.encode r).length = FDCAN_RelPackCap_t.FDCAN_BYTES
      ∧ (FDCAN_RelPackCap_t.FDCAN_BYTES ≤ cap →
          encode_can_package FDCAN_RelPackCap_t.encode r cap = .ok (FDCAN_RelPackCap_t.encode r, FDCAN_RelPackCap_t.FDCAN_BYTES))
      ∧ (cap < FDCAN_RelPackCap_t.FDCAN_BYTES →
          encode_can_package FDCAN_RelPackCap_t.encode r cap = .error .UnexpectedEnd))
    ∧ (∀ (r : FDCAN_RelPackFc_t) (cap : Nat),
      (FDCAN_RelPackFc_t.encode r).length = FDCAN_RelPackFc_t.FDCAN_BYTES
      ∧ (FDCAN_RelPackFc_t.FDCAN_BYTES ≤ cap →
          encode_can_package FDCAN_RelPackFc_t.encode r cap = .ok (FDCAN_RelPackFc_t.encode r, FDCAN_RelPackFc_t.FDCAN_BYTES))
      ∧ (cap < FDCAN_RelPackFc_t.FDCAN_BYTES →
          encode_can_package FDCAN_RelPackFc_t.encode r cap = .error .UnexpectedEnd))
    ∧ (∀ (r : FDCAN_FccPack1_t) (cap : Nat),
      (FDCAN_FccPack1_t.encode r).length = FDCAN_FccPack1_t.FDCAN_BYTES
      ∧ (FDCAN_FccPack1_t.FDCAN_BYTES ≤ cap →
          encode_can_package FDCAN_FccPack1_t.encode r cap = .ok (FDCAN_FccPack1_t.encode r, FDCAN_FccPack1_t.FDCAN_BYTES))
      ∧ (cap < FDCAN_FccPack1_t.FDCAN_BYTES →
          encode_can_package FDCAN_FccPack1_t.encode r cap = .error .UnexpectedEnd))
    ∧ (∀ (r : FDCAN_FccPack2_t) (cap : Nat),
      (FDCAN_FccPack2_t.encode r).length = FDCAN_FccPack2_t.FDCAN_BYTES
      ∧ (FDCAN_FccPack2_t.FDCAN_BYTES ≤ cap →
          encode_can_package FDCAN_FccPack2_t.encode r cap = .ok (FDCAN_FccPack2_t.encode r, FDCAN_FccPack2_t.FDCAN_BYTES))
      ∧ (cap < FDCAN_FccPack2_t.FDCAN_BYTES →
          encode_can_package FDCAN_FccPack2_t.encode r cap = .error .UnexpectedEnd))
    ∧ (∀ (r : FDCAN_FccPack3_t) (cap : Nat),
      (FDCAN_FccPack3_t.encode r).length = FDCAN_FccPack3_t.FDCAN_BYTES
      ∧ (FDCAN_FccPack3_t.FDCAN_BYTES ≤ cap →
          encode_can_package FDCAN_FccPack3_t.encode r cap = .ok (FDCAN_FccPack3_t.encode r, FDCAN_FccPack3_t.FDCAN_BYTES))
      ∧ (cap < FDCAN_FccPack3_t.FDCAN_BYTES →
          encode_can_package FDCAN_FccPack3_t.encode r cap = .error .UnexpectedEnd))
    ∧ (∀ (r : ECOCAN_H2Pack1_t) (cap : Nat),
      (ECOCAN_H2Pack1_t.encode r).length = ECOCAN_H2Pack1_t.FDCAN_BYTES
      ∧ (ECOCAN_H2Pack1_t.FDCAN_BYTES ≤ cap →
          encode_can_package ECOCAN_H2Pack1_t.encode r cap = .ok (ECOCAN_H2Pack1_t.encode r, ECOCAN_H2Pack1_t.FDCAN_BYTES))
      ∧ (cap < ECOCAN_H2Pack1_t.FDCAN_BYTES →
          encode_can_package ECOCAN_H2Pack1_t.encode r cap = .error .UnexpectedEnd))
    ∧ (∀ (r : ECOCAN_H2Pack2_t) (cap : Nat),
      (ECOCAN_H2Pack2_t.encode r).length = ECOCAN_H2Pack2_t.FDCAN_BYTES
      ∧ (ECOCAN_H2Pack2_t.FDCAN_BYTES ≤ cap →
          encode_can_package ECOCAN_H2Pack2_t.encode r cap = .ok (ECOCAN_H2Pack2_t.encode r, ECOCAN_H2Pack2_t.FDCAN_BYTES))
      ∧ (cap < ECOCAN_H2Pack2_t.FDCAN_BYTES →
          encode_can_package ECOCAN_H2Pack2_t.encode r cap = .error .UnexpectedEnd))
    ∧ (∀ (r : ECOCAN_H2_ARM_ALARM_t) (cap : Nat),
      (ECOCAN_H2_ARM_ALARM_t.encode r).length = ECOCAN_H2_ARM_ALARM_t.FDCAN_BYTES
      ∧ (ECOCAN_H2_ARM_ALARM_t.FDCAN_BYTES ≤ cap →
          encode_can_package ECOCAN_H2_ARM_ALARM_t.encode r cap = .ok (ECOCAN_H2_ARM_ALARM_t.encode r, ECOCAN_H2_ARM_ALARM_t.FDCAN_BYTES))
      ∧ (cap < ECOCAN_H2_ARM_ALARM_t.FDCAN_BYTES →
          encode_can_package ECOCAN_H2_ARM_ALARM_t.encode r cap = .error .UnexpectedEnd))
    ∧ (∀ (r : FDCAN_BOOSTPack1_t) (cap : Nat),
      (FDCAN_BOOSTPack1_t.encode r).length = FDCAN_BOOSTPack1_t.FDCAN_BYTES
      ∧ (FDCAN_BOOSTPack1_t.FDCAN_BYTES ≤ cap →
          encode_can_package FDCAN_BOOSTPack1_t.encode r cap = .ok (FDCAN_BOOSTPack1_t.encode r, FDCAN_BOOSTPack1_t.FDCAN_BYTES))
      ∧ (cap < FDCAN_BOOSTPack1_t.FDCAN_BYTES →
          encode_can_package FDCAN_BOOSTPack1_t.encode r cap = .error .UnexpectedEnd))
    ∧ (∀ (r : FDCAN_BOOSTPack2_t) (cap : Nat),
      (FDCAN_BOOSTPack2_t.encode r).length = FDCAN_BOOSTPack2_t.FDCAN_BYTES
      ∧ (FDCAN_BOOSTPack2_t.FDCAN_BYTES ≤ cap →
          encode_can_package FDCAN_BOOSTPack2_t.encode r cap = .ok (FDCAN_BOOSTPack2_t.encode r, FDCAN_BOOSTPack2_t.FDCAN_BYTES))
      ∧ (cap < FDCAN_BOOSTPack2_t.FDCAN_BYTES →
          encode_can_package FDCAN_BOOSTPack2_t.encode r cap = .error .UnexpectedEnd))
    ∧ (∀ (r : FDCAN_BOOSTPack3_t) (cap : Nat),
      (FDCAN_BOOSTPack3_t.encode r).length = FDCAN_BOOSTPack3_t.FDCAN_BYTES
      ∧ (FDCAN_BOOSTPack3_t.FDCAN_BYTES ≤ cap →
          encode_can_package FDCAN_BOOSTPack3_t.encode r cap = .ok (FDCAN_BOOSTPack3_t.encode r, FDCAN_BOOSTPack3_t.FDCAN_BYTES))
      ∧ (cap < FDCAN_BOOSTPack3_t.FDCAN_BYTES →
          encode_can_package FDCAN_BOOSTPack3_t.encode r cap = .error .UnexpectedEnd))
    ∧ (∀ (r : FDCAN_BATTPack2_t) (cap : Nat),
      (FDCAN_BATTPack2_t.encode r).length = FDCAN_BATTPack2_t.FDCAN_BYTES
      ∧ (FDCAN_BATTPack2_t.FDCAN_BYTES ≤ cap →
          encode_can_package FDCAN_BATTPack2_t.encode r cap = .ok (FDCAN_BATTPack2_t.encode r, FDCAN_BATTPack2_t.FDCAN_BYTES))
      ∧ (cap < FDCAN_BATTPack2_t.FDCAN_BYTES →
          encode_can_package FDCAN_BATTPack2_t.encode r cap = .error .UnexpectedEnd))
    := by
  refine ⟨?_, ?_, ?_, ?_, ?_, ?_, ?_, ?_, ?_, ?_, ?_, ?_, ?_, ?_, ?_, ?_⟩
  · intro r cap
    have hl : (FDCAN_FetPack_t.encode r).length = FDCAN_FetPack_t.FDCAN_BYTES := by
      simp [FDCAN_FetPack_t.encode, FDCAN_FetPack_t.FDCAN_BYTES, encBE8, encBE16, encBE32, encI32]
    refine ⟨hl, fun hc => ?_, fun hc => ?_⟩
    · simp [encode_can_package, encode_into_slice, hl, hc]
    · simp only [encode_can_package, encode_into_slice, hl]
      rw [if_neg (Nat.not_le.mpr hc)]
  · intro r cap
    have hl : (ECOCAN_RelPackChrg_t.encode r).length = ECOCAN_RelPackChrg_t.FDCAN_BYTES := by
      simp [ECOCAN_RelPackChrg_t.encode, ECOCAN_RelPackChrg_t.FDCAN_BYTES, encBE8, encBE16, encBE32, encI32]
    refine ⟨hl, fun hc => ?_, fun hc => ?_⟩
    · simp [encode_can_package, encode_into_slice, hl, hc]
    · simp only [encode_can_package, encode_into_slice, hl]
      rw [if_neg (Nat.not_le.mpr hc)]
  · intro r cap
    have hl : (FDCAN_RelPackNrg_t.encode r).length = FDCAN_RelPackNrg_t.FDCAN_BYTES := by
      simp [FDCAN_RelPackNrg_t.encode, FDCAN_RelPackNrg_t.FDCAN_BYTES, encBE8, encBE16, encBE32, encI32]
    refine ⟨hl, fun hc => ?_, fun hc => ?_⟩
    · simp [encode_can_package, encode_into_slice, hl, hc]
    · simp only [encode_can_package, encode_into_slice, hl]
      rw [if_neg (Nat.not_le.mpr hc)]
  · intro r cap
    have hl : (FDCAN_RelPackMtr_t.encode r).length = FDCAN_RelPackMtr_t.FDCAN_BYTES := by
      simp [FDCAN_RelPackMtr_t.encode, FDCAN_RelPackMtr_t.FDCAN_BYTES, encBE8, encBE16, encBE32, encI32]
    refine ⟨hl, fun hc => ?_, fun hc => ?_⟩
    · simp [encode_can_package, encode_into_slice, hl, hc]
    · simp only [encode_can_package, encode_into_slice, hl]
      rw [if_neg (Nat.not_le.mpr hc)]
  · intro r cap
    have hl : (FDCAN_RelPackCap_t.encode r).length = FDCAN_RelPackCap_t.FDCAN_BYTES := by
      simp [FDCAN_RelPackCap_t.encode, FDCAN_RelPackCap_t.FDCAN_BYTES, encBE8, encBE16, encBE32, encI32]
    refine ⟨hl, fun hc => ?_, fun hc => ?_⟩
    · simp [encode_can_package, encode_into_slice, hl, hc]
    · simp only [encode_can_package, encode_into_slice, hl]
      rw [if_neg (Nat.not_le.mpr hc)]
  · intro r cap
    have hl : (FDCAN_RelPackFc_t.encode r).length = FDCAN_RelPackFc_t.FDCAN_BYTES := by
      simp [FDCAN_RelPackFc_t.encode, FDCAN_RelPackFc_t.FDCAN_BYTES, encBE8, encBE16, encBE32, encI32]
    refine ⟨hl, fun hc => ?_, fun hc => ?_⟩
    · simp [encode_can_package, encode_into_slice, hl, hc]
    · simp only [encode_can_package, encode_into_slice, hl]
      rw [if_neg (Nat.not_le.mpr hc)]
  · intro r cap
    have hl : (FDCAN_FccPack1_t.encode r).length = FDCAN_FccPack1_t.FDCAN_BYTES := by
      simp [FDCAN_FccPack1_t.encode, FDCAN_FccPack1_t.FDCAN_BYTES, encBE8, encBE16, encBE32, encI32]
    refine ⟨hl, fun hc => ?_, fun hc => ?_⟩
    · simp [encode_can_package, encode_into_slice, hl, hc]
    · simp only [encode_can_package, encode_into_slice, hl]
      rw [if_neg (Nat.not_le.mpr hc)]
  · intro r cap
    have hl : (FDCAN_FccPack2_t.encode r).length = FDCAN_FccPack2_t.FDCAN_BYTES := by
      simp [FDCAN_FccPack2_t.encode, FDCAN_FccPack2_t.FDCAN_BYTES, encBE8, encBE16, encBE32, encI32]
    refine ⟨hl, fun hc => ?_, fun hc => ?_⟩
    · simp [encode_can_package, encode_into_slice, hl, hc]
    · simp only [encode_can_package, encode_into_slice, hl]
      rw [if_neg (Nat.not_le.mpr hc)]
  · intro r cap
    have hl : (FDCAN_FccPack3_t.encode r).length = FDCAN_FccPack3_t.FDCAN_BYTES := by
      simp [FDCAN_FccPack3_t.encode, FDCAN_FccPack3_t.FDCAN_BYTES, encBE8, encBE16, encBE32, encI32]
    refine ⟨hl, fun hc => ?_, fun hc => ?_⟩
    · simp [encode_can_package, encode_into_slice, hl, hc]
    · simp only [encode_can_package, encode_into_slice, hl]
      rw [if_neg (Nat.not_le.mpr hc)]
  · intro r cap
    have hl : (ECOCAN_H2Pack1_t.encode r).length = ECOCAN_H2Pack1_t.FDCAN_BYTES := by
      simp [ECOCAN_H2Pack1_t.encode, ECOCAN_H2Pack1_t.FDCAN_BYTES, encBE8, encBE16, encBE32, encI32]
    refine ⟨hl, fun hc => ?_, fun hc => ?_⟩
    · simp [encode_can_package, encode_into_slice, hl, hc]
    · simp only [encode_can_package, encode_into_slice, hl]
      rw [if_neg (Nat.not_le.mpr hc)]
  · intro r cap
    have hl : (ECOCAN_H2Pack2_t.encode r).length = ECOCAN_H2Pack2_t.FDCAN_BYTES := by
      simp [ECOCAN_H2Pack2_t.encode, ECOCAN_H2Pack2_t.FDCAN_BYTES, encBE8, encBE16, encBE32, encI32]
    refine ⟨hl, fun hc => ?_, fun hc => ?_⟩
    · simp [encode_can_package, encode_into_slice, hl, hc]
    · simp only [encode_can_package, encode_into_slice, hl]
      rw [if_neg (Nat.not_le.mpr hc)]
  · intro r cap
    have hl : (ECOCAN_H2_ARM_ALARM_t.encode r).length = ECOCAN_H2_ARM_ALARM_t.FDCAN_BYTES := by
      simp [ECOCAN_H2_ARM_ALARM_t.encode, ECOCAN_H2_ARM_ALARM_t.FDCAN_BYTES, encBE8, encBE16, encBE32, encI32]
    refine ⟨hl, fun hc => ?_, fun hc => ?_⟩
    · simp [encode_can_package, encode_into_slice, hl, hc]
    · simp only [encode_can_package, encode_into_slice, hl]
      rw [if_neg (Nat.not_le.mpr hc)]
  · intro r cap
    have hl : (FDCAN_BOOSTPack1_t.encode r).length = FDCAN_BOOSTPack1_t.FDCAN_BYTES := by
      simp [FDCAN_BOOSTPack1_t.encode, FDCAN_BOOSTPack1_t.FDCAN_BYTES, encBE8, encBE16, encBE32, encI32]
    refine ⟨hl, fun hc => ?_, fun hc => ?_⟩
    · simp [encode_can_package, encode_into_slice, hl, hc]
    · simp only [encode_can_package, encode_into_slice, hl]
      rw [if_neg (Nat.not_le.mpr hc)]
  · intro r cap
    have hl : (FDCAN_BOOSTPack2_t.encode r).length = FDCAN_BOOSTPack2_t.FDCAN_BYTES := by
      simp [FDCAN_BOOSTPack2_t.encode, FDCAN_BOOSTPack2_t.FDCAN_BYTES, encBE8, encBE16, encBE32, encI32]
    refine ⟨hl, fun hc => ?_, fun hc => ?_⟩
    · simp [encode_can_package, encode_into_slice, hl, hc]
    · simp only [encode_can_package, encode_into_slice, hl]
      rw [if_neg (Nat.not_le.mpr hc)]
  · intro r cap
    have hl : (FDCAN_BOOSTPack3_t.encode r).length = FDCAN_BOOSTPack3_t.FDCAN_BYTES := by
      simp [FDCAN_BOOSTPack3_t.encode, FDCAN_BOOSTPack3_t.FDCAN_BYTES, encBE8, encBE16, encBE32, encI32]
    refine ⟨hl, fun hc => ?_, fun hc => ?_⟩
    · simp [encode_can_package, encode_into_slice, hl, hc]
    · simp only [encode_can_package, encode_into_slice, hl]
      rw [if_neg (Nat.not_le.mpr hc)]
  · intro r cap
    have hl : (FDCAN_BATTPack2_t.encode r).length = FDCAN_BATTPack2_t.FDCAN_BYTES := by
      simp [FDCAN_BATTPack2_t.encode, FDCAN_BATTPack2_t.FDCAN_BYTES, encBE8, encBE16, encBE32, encI32]
    refine ⟨hl, fun hc => ?_, fun hc => ?_⟩
    · simp [encode_can_package, encode_into_slice, hl, hc]
    · simp only [encode_can_package, encode_into_slice, hl]
      rw [if_neg (Nat.not_le.mpr hc)]

theorem C8_encode_exact_length_witness :
    encode_can_package FDCAN_FetPack_t.encode ⟨1, 2, 3, 4, 5, 6⟩ 64 =
        .ok (FDCAN_FetPack_t.encode ⟨1, 2, 3, 4, 5, 6⟩, FDCAN_FetPack_t.FDCAN_BYTES)
    ∧ encode_can_package FDCAN_FetPack_t.encode ⟨1, 2, 3, 4, 5, 6⟩ 0 =
        .error .UnexpectedEnd :=
  ⟨(C8_encode_exact_length.1 ⟨1, 2, 3, 4, 5, 6⟩ 64).2.1
      (by norm_num [FDCAN_FetPack_t.FDCAN_BYTES]),
   (C8_encode_exact_length.1 ⟨1, 2, 3, 4, 5, 6⟩ 0).2.2
      (by norm_num [FDCAN_FetPack_t.FDCAN_BYTES])⟩

end Sally
